import Mathlib

/-!
Verification of the psx-rs CPU interpreter core (src/cpu/mod.rs) and the
BIOS image abstraction (src/bios/mod.rs), as a shallow embedding in Lean.

Machine integers (`u32`) are represented as `Nat` values below `2 ^ 32`;
operations that wrap in Rust are taken modulo `2 ^ 32`.  External
collaborators (Interconnect, SharedState, Debugger, GTE) are modelled
through their narrow interfaces: interconnect loads are pure functions
supplied by an `Env`, stores are recorded in a log, the GTE is a pair of
register maps plus a command log.  Rust `panic!`/`unreachable!` paths are
modelled by `Option` (a panicking path yields `none`).
-/

namespace PsxRs

/-- Wrap a natural number to the `u32` range, mirroring Rust wrapping
arithmetic on 32-bit words. -/
def w32 (n : Nat) : Nat := n % 4294967296

/-- Wrapping 32-bit addition (`u32::wrapping_add`). -/
def wadd (a b : Nat) : Nat := w32 (a + b)

/-- Wrapping 32-bit subtraction (`u32::wrapping_sub`). -/
def wsub (a b : Nat) : Nat := w32 (a + (4294967296 - b % 4294967296))

/-- View a `u32` value as a signed 32-bit integer (Rust `as i32`). -/
def toSigned (n : Nat) : Int :=
  if n < 2147483648 then (n : Int) else (n : Int) - 4294967296

/-- Truncate a signed integer back to its `u32` representation
(Rust `as u32` on an `i32`). -/
def toU32 (i : Int) : Nat := (i % 4294967296).toNat

/-- Rust `x as i8 as u32`: keep the low byte and sign-extend it to 32 bits. -/
def sext8 (x : Nat) : Nat :=
  let b := x % 256
  if b < 128 then b else b + 4294967040

/-- Rust `x as i16 as u32`: keep the low half-word and sign-extend it to
32 bits. -/
def sext16 (x : Nat) : Nat :=
  let h := x % 65536
  if h < 32768 then h else h + 4294901760

/-- Rust `i32::checked_add`: `some` of the mathematical sum when it is
representable as a signed 32-bit integer, `none` on overflow. -/
def i32CheckedAdd (x y : Int) : Option Int :=
  if -2147483648 ≤ x + y ∧ x + y < 2147483648 then some (x + y) else none

/-- Rust `i32::checked_sub`. -/
def i32CheckedSub (x y : Int) : Option Int :=
  if -2147483648 ≤ x - y ∧ x - y < 2147483648 then some (x - y) else none

/-- Source `struct Instruction(u32)`: wrapper around a 32-bit opcode. -/
structure Instruction where
  word : Nat
deriving DecidableEq

namespace Instruction

/-- Bits [31:26] of the instruction (source `Instruction::function`). -/
def function (i : Instruction) : Nat := i.word >>> 26

/-- Bits [5:0] of the instruction (source `Instruction::subfunction`). -/
def subfunction (i : Instruction) : Nat := i.word &&& 0x3f

/-- Coprocessor opcode in bits [25:21] (source `Instruction::cop_opcode`). -/
def cop_opcode (i : Instruction) : Nat := (i.word >>> 21) &&& 0x1f

/-- Register index in bits [25:21] (source `Instruction::s`). -/
def s (i : Instruction) : Nat := (i.word >>> 21) &&& 0x1f

/-- Register index in bits [20:16] (source `Instruction::t`). -/
def t (i : Instruction) : Nat := (i.word >>> 16) &&& 0x1f

/-- Register index in bits [15:11] (source `Instruction::d`). -/
def d (i : Instruction) : Nat := (i.word >>> 11) &&& 0x1f

/-- Immediate value in bits [15:0] (source `Instruction::imm`). -/
def imm (i : Instruction) : Nat := i.word &&& 0xffff

/-- Immediate value in bits [15:0] sign-extended to 32 bits
(source `Instruction::imm_se`). -/
def imm_se (i : Instruction) : Nat := sext16 i.word

/-- Shift amount in bits [10:6] (source `Instruction::shift`). -/
def shift (i : Instruction) : Nat := (i.word >>> 6) &&& 0x1f

/-- Jump target in bits [25:0] (source `Instruction::imm_jump`). -/
def imm_jump (i : Instruction) : Nat := i.word &&& 0x3ffffff

/-- Source `Instruction::is_gte_op`, verbatim: it compares the function
field with `0b010001`.  (Note: the dispatcher sends `0b010010` to
`op_cop2`; `0b010001` is the COP1 opcode.) -/
def is_gte_op (i : Instruction) : Bool := i.function == 0b010001

end Instruction

/-- Guest-visible exception kinds (source `cop0::Exception`; the
enumeration is listed in the spec since `cop0.rs` is not under `src/`). -/
inductive Exception where
  | LoadAddressError
  | StoreAddressError
  | SysCall
  | Break
  | IllegalInstruction
  | CoprocessorError
  | Overflow
  | Interrupt
deriving DecidableEq

/-- Modelled from the spec: `cop0.rs` is not under `src/`.  Each exception
kind maps to its fixed MIPS cause code (the spec pins Overflow = 12 and
the others are the standard MIPS codes: AdEL = 4, AdES = 5, Syscall = 8,
Bp = 9, RI = 10, CpU = 11, Int = 0). -/
def exceptionCode : Exception → Nat
  | .Interrupt          => 0
  | .LoadAddressError   => 4
  | .StoreAddressError  => 5
  | .SysCall            => 8
  | .Break              => 9
  | .IllegalInstruction => 10
  | .CoprocessorError   => 11
  | .Overflow           => 12

/-- Modelled from the spec: `cop0.rs` is not under `src/`.  Coprocessor 0
state: status register SR, cause register, and EPC. -/
structure Cop0 where
  sr : Nat
  cause : Nat
  epc : Nat

namespace Cop0

/-- Modelled from the spec: cache isolation is SR bit 16 (IsC). -/
def cache_isolated (c : Cop0) : Bool := (c.sr >>> 16) &&& 1 == 1

/-- Modelled from the spec: the CAUSE register as read through MFC0 is
the internal cause word with the hardware interrupt-pending bit (bit 10)
reflecting the external IRQ state. -/
def causeReg (c : Cop0) (irqPending : Bool) : Nat :=
  c.cause ||| (if irqPending then 0x400 else 0)

/-- Modelled from the spec: an interrupt is active when the external
IRQ-state's any-pending bit, the matching SR interrupt-mask bit and
SR[IEc] (bit 0) all permit it. -/
def irq_active (c : Cop0) (irqPending : Bool) : Bool :=
  irqPending && ((c.sr >>> 10) &&& 1 == 1) && (c.sr &&& 1 == 1)

/-- Modelled from the spec (section 4.3): exception entry.  Returns the
updated Cop0 state and the handler vector.  SR[5:0] is shifted left by
two (pushing the KU/IE pair stack), CAUSE bits [6:2] receive the cause
code and CAUSE[31] the delay-slot flag, EPC receives the faulting PC
(minus 4 in a delay slot). -/
def enter_exception (c : Cop0) (cause : Exception) (epc_pc : Nat)
    (in_delay_slot : Bool) : Cop0 × Nat :=
  let handler : Nat := if (c.sr >>> 22) &&& 1 == 1 then 0xbfc00180 else 0x80000080
  let mode := c.sr &&& 0x3f
  let sr' := (c.sr &&& 0xffffffc0) ||| ((mode <<< 2) &&& 0x3f)
  let cause' := (c.cause &&& 0x7fffff83) ||| (exceptionCode cause <<< 2)
                  ||| (if in_delay_slot then 0x80000000 else 0)
  let epc' := if in_delay_slot then wsub epc_pc 4 else epc_pc
  ({ sr := sr', cause := cause', epc := epc' }, handler)

/-- Modelled from the spec (section 4.3): RFE shifts SR[5:0] right by
two, popping the KU/IE pair stack. -/
def return_from_exception (c : Cop0) : Cop0 :=
  { c with sr := (c.sr &&& 0xffffffc0) ||| ((c.sr &&& 0x3f) >>> 2) }

/-- Modelled from the spec: MTC0 to CAUSE only writes the software
interrupt bits (bits 9:8); every other bit is masked off. -/
def set_cause (c : Cop0) (v : Nat) : Cop0 :=
  { c with cause := (c.cause &&& 0xfffffcff) ||| (v &&& 0x300) }

/-- Modelled from the spec: MTC0 to SR replaces the whole register. -/
def set_sr (c : Cop0) (v : Nat) : Cop0 := { c with sr := v }

end Cop0

/-- Model of the GTE (Coprocessor 2) through its external interface
(spec section 6): data and control register maps plus a log of the
commands submitted via `Gte::command`. -/
structure Gte where
  dataF : Nat → Nat
  controlF : Nat → Nat
  commands : List Nat

namespace Gte

/-- GTE `data(reg)` accessor. -/
def data (g : Gte) (r : Nat) : Nat := g.dataF r

/-- GTE `control(reg)` accessor. -/
def control (g : Gte) (r : Nat) : Nat := g.controlF r

/-- GTE `set_data(reg, v)`. -/
def set_data (g : Gte) (r v : Nat) : Gte :=
  { g with dataF := fun x => if x = r then v else g.dataF x }

/-- GTE `set_control(reg, v)`. -/
def set_control (g : Gte) (r v : Nat) : Gte :=
  { g with controlF := fun x => if x = r then v else g.controlF x }

/-- GTE `command(op)`: the command word is recorded. -/
def command (g : Gte) (op : Nat) : Gte :=
  { g with commands := op :: g.commands }

end Gte

/-- Source `struct ICacheLine`: packed tag/valid word plus four
instruction words (the line map is only consulted at indices 0..3). -/
structure ICacheLine where
  tag_valid : Nat
  line : Nat → Nat

namespace ICacheLine

/-- Source `ICacheLine::tag`: bits [31:12] of `tag_valid`. -/
def tag (l : ICacheLine) : Nat := l.tag_valid &&& 0xfffff000

/-- Source `ICacheLine::valid_index`: bits [4:2] of `tag_valid`. -/
def valid_index (l : ICacheLine) : Nat := (l.tag_valid >>> 2) &&& 0x7

/-- Source `ICacheLine::set_tag_valid`. -/
def set_tag_valid (l : ICacheLine) (pc : Nat) : ICacheLine :=
  { l with tag_valid := pc &&& 0x7ffff00c }

/-- Source `ICacheLine::invalidate`: set bit 4 so `valid_index` lands in
[4, 7]. -/
def invalidate (l : ICacheLine) : ICacheLine :=
  { l with tag_valid := l.tag_valid ||| 0x10 }

/-- Source `ICacheLine::instruction`. -/
def instruction (l : ICacheLine) (index : Nat) : Nat := l.line index

/-- Source `ICacheLine::set_instruction`. -/
def set_instruction (l : ICacheLine) (index v : Nat) : ICacheLine :=
  { l with line := fun j => if j = index then v else l.line j }

end ICacheLine

/-- Pure model of the external collaborators read during a step: the
interconnect's loads (`load::<Byte/HalfWord/Word>` and
`load_instruction`), its cache-control register, and the IRQ state
snapshot (spec section 6). -/
structure Env where
  loadByteF : Nat → Nat
  loadHalfF : Nat → Nat
  loadWordF : Nat → Nat
  loadInstrF : Nat → Nat
  icacheEnabled : Bool
  tagTestMode : Bool
  irqPending : Bool

/-- CPU state (source `struct Cpu`), with the borrowed shared state's
timekeeper (`ticks`, `syncPending`) folded in and interconnect stores
recorded as a `(width, addr, value)` log. -/
structure Cpu where
  pc : Nat
  next_pc : Nat
  current_pc : Nat
  regs : Nat → Nat
  hi : Nat
  lo : Nat
  icache : Nat → ICacheLine
  cop0 : Cop0
  gte : Gte
  load : Nat × Nat
  branch : Bool
  delay_slot : Bool
  debug_on_break : Bool
  stores : List (Nat × Nat × Nat)
  ticks : Nat
  syncPending : Bool

namespace Cpu

/-- Source `Cpu::reg`. -/
def reg (c : Cpu) (i : Nat) : Nat := c.regs i

/-- Source `Cpu::set_reg`: write the register, then force R0 back to 0. -/
def set_reg (c : Cpu) (i v : Nat) : Cpu :=
  { c with regs := fun j => if j = 0 then 0 else if j = i then v else c.regs j }

/-- Source `Cpu::delayed_load`: commit the pending delayed load and reset
the slot to the `(0, 0)` sentinel. -/
def delayed_load (c : Cpu) : Cpu :=
  { c.set_reg c.load.1 c.load.2 with load := (0, 0) }

/-- Source `Cpu::delayed_load_chain`: commit the pending delayed load
unless it targets the same register as the new load (in which case it is
discarded), then install the new load as the single pending one. -/
def delayed_load_chain (c : Cpu) (r v : Nat) : Cpu :=
  let pending := c.load
  let c' := if pending.1 ≠ r then c.set_reg pending.1 pending.2 else c
  { c' with load := (r, v) }

/-- Source `Cpu::branch`: shift the offset left by two and add it to the
(already advanced) PC; flag the branch. -/
def branchTo (c : Cpu) (offset : Nat) : Cpu :=
  { c with next_pc := wadd c.pc (w32 (offset <<< 2)), branch := true }

/-- Source `Cpu::exception`: enter the exception through Cop0 and jump
directly to the handler (no branch delay). -/
def exception (c : Cpu) (cause : Exception) : Cpu :=
  let (cop0', handler) :=
    c.cop0.enter_exception cause c.current_pc c.delay_slot
  { c with cop0 := cop0', pc := handler, next_pc := wadd handler 4 }

/-- Source `Cpu::cache_maintenance`: only invalidation-style writes are
supported; anything else is a fatal assertion (`none`). -/
def cache_maintenance (env : Env) (c : Cpu) (width addr v : Nat) :
    Option Cpu :=
  if !env.icacheEnabled then none
  else if width ≠ 4 ∨ v ≠ 0 then none
  else
    let li := (addr >>> 4) &&& 0xff
    let l := c.icache li
    let l' := if env.tagTestMode then l.invalidate
              else l.set_instruction ((addr >>> 2) &&& 3) v
    some { c with icache := fun j => if j = li then l' else c.icache j }

/-- Source `Cpu::store`: cache maintenance while Cop0 isolates the
cache, otherwise an interconnect store (recorded in the log). -/
def store (env : Env) (c : Cpu) (width addr v : Nat) : Option Cpu :=
  if c.cop0.cache_isolated then cache_maintenance env c width addr v
  else some { c with stores := (width, addr, v) :: c.stores }

/-- Source `Cpu::load` for the given access width (1, 2 or 4 bytes),
reading through the pure interconnect model. -/
def loadMem (env : Env) (width addr : Nat) : Nat :=
  if width = 1 then env.loadByteF addr
  else if width = 2 then env.loadHalfF addr
  else env.loadWordF addr

end Cpu

/-- Value of the Processor ID register, Cop0r15 (source `PROCESSOR_ID`). -/
def PROCESSOR_ID : Nat := 0x00000002

/-- PlayStation CPU clock in Hz (source `CPU_FREQ_HZ`). -/
def CPU_FREQ_HZ : Nat := 33868500

namespace Cpu

/-- Source `Cpu::op_illegal`. -/
def op_illegal (c : Cpu) : Cpu :=
  c.delayed_load.exception .IllegalInstruction

/-- Source `Cpu::op_sll` (Shift Left Logical). -/
def op_sll (i : Instruction) (c : Cpu) : Cpu :=
  let v := w32 (c.reg i.t <<< i.shift)
  (c.delayed_load).set_reg i.d v

/-- Source `Cpu::op_srl` (Shift Right Logical). -/
def op_srl (i : Instruction) (c : Cpu) : Cpu :=
  let v := c.reg i.t >>> i.shift
  (c.delayed_load).set_reg i.d v

/-- Source `Cpu::op_sra` (Shift Right Arithmetic); an arithmetic right
shift of an `i32` is floor division by the power of two. -/
def op_sra (i : Instruction) (c : Cpu) : Cpu :=
  let v := toU32 (Int.fdiv (toSigned (c.reg i.t)) (2 ^ i.shift))
  (c.delayed_load).set_reg i.d v

/-- Source `Cpu::op_sllv`: the shift amount is truncated to 5 bits. -/
def op_sllv (i : Instruction) (c : Cpu) : Cpu :=
  let v := w32 (c.reg i.t <<< (c.reg i.s &&& 0x1f))
  (c.delayed_load).set_reg i.d v

/-- Source `Cpu::op_srlv`. -/
def op_srlv (i : Instruction) (c : Cpu) : Cpu :=
  let v := c.reg i.t >>> (c.reg i.s &&& 0x1f)
  (c.delayed_load).set_reg i.d v

/-- Source `Cpu::op_srav`. -/
def op_srav (i : Instruction) (c : Cpu) : Cpu :=
  let v := toU32 (Int.fdiv (toSigned (c.reg i.t)) (2 ^ (c.reg i.s &&& 0x1f)))
  (c.delayed_load).set_reg i.d v

/-- Source `Cpu::op_bxx` (BGEZ, BLTZ, BGEZAL, BLTZAL): the link (when
bits [20:17] equal 0b1000) is unconditional; the branch is taken when
"reg s < 0" xor the is-bgez bit. -/
def op_bxx (i : Instruction) (c : Cpu) : Cpu :=
  let is_bgez := (i.word >>> 16) &&& 1
  let is_link := (i.word >>> 17) &&& 0xf == 0x8
  let v := toSigned (c.reg i.s)
  let test := (if v < 0 then 1 else 0) ^^^ is_bgez
  let c := c.delayed_load
  let c := if is_link then c.set_reg 31 c.next_pc else c
  if test ≠ 0 then c.branchTo i.imm_se else c

/-- Source `Cpu::op_jr`. -/
def op_jr (i : Instruction) (c : Cpu) : Cpu :=
  let c := { c with next_pc := c.reg i.s }
  { c.delayed_load with branch := true }

/-- Source `Cpu::op_jalr`. -/
def op_jalr (i : Instruction) (c : Cpu) : Cpu :=
  let ra := c.next_pc
  let c := { c with next_pc := c.reg i.s }
  { (c.delayed_load).set_reg i.d ra with branch := true }

/-- Source `Cpu::op_syscall`. -/
def op_syscall (c : Cpu) : Cpu :=
  c.delayed_load.exception .SysCall

/-- Source `Cpu::op_break`: with `debug_on_break` the debugger is
triggered (an external effect) instead of the Break exception. -/
def op_break (c : Cpu) : Cpu :=
  let c := c.delayed_load
  if c.debug_on_break then c else c.exception .Break

/-- Source `Cpu::op_mfhi`. -/
def op_mfhi (i : Instruction) (c : Cpu) : Cpu :=
  let hi := c.hi
  (c.delayed_load).set_reg i.d hi

/-- Source `Cpu::op_mthi`. -/
def op_mthi (i : Instruction) (c : Cpu) : Cpu :=
  { c with hi := c.reg i.s }.delayed_load

/-- Source `Cpu::op_mflo`. -/
def op_mflo (i : Instruction) (c : Cpu) : Cpu :=
  let lo := c.lo
  (c.delayed_load).set_reg i.d lo

/-- Source `Cpu::op_mtlo`. -/
def op_mtlo (i : Instruction) (c : Cpu) : Cpu :=
  { c with lo := c.reg i.s }.delayed_load

/-- Source `Cpu::op_mult` (signed 32x32 -> 64 multiply into HI:LO). -/
def op_mult (i : Instruction) (c : Cpu) : Cpu :=
  let a := toSigned (c.reg i.s)
  let b := toSigned (c.reg i.t)
  let c := c.delayed_load
  let v := ((a * b) % 18446744073709551616).toNat
  { c with hi := w32 (v >>> 32), lo := w32 v }

/-- Source `Cpu::op_multu`. -/
def op_multu (i : Instruction) (c : Cpu) : Cpu :=
  let a := c.reg i.s
  let b := c.reg i.t
  let c := c.delayed_load
  let v := a * b
  { c with hi := w32 (v >>> 32), lo := w32 v }

/-- Source `Cpu::op_div` (signed division with the MIPS edge cases for a
zero divisor and for `0x80000000 / -1`). -/
def op_div (i : Instruction) (c : Cpu) : Cpu :=
  let n := toSigned (c.reg i.s)
  let d := toSigned (c.reg i.t)
  let c := c.delayed_load
  if d = 0 then
    { c with hi := toU32 n, lo := if 0 ≤ n then 0xffffffff else 1 }
  else if toU32 n = 0x80000000 ∧ d = -1 then
    { c with hi := 0, lo := 0x80000000 }
  else
    { c with hi := toU32 (Int.tmod n d), lo := toU32 (Int.tdiv n d) }

/-- Source `Cpu::op_divu`. -/
def op_divu (i : Instruction) (c : Cpu) : Cpu :=
  let n := c.reg i.s
  let d := c.reg i.t
  let c := c.delayed_load
  if d = 0 then
    { c with hi := n, lo := 0xffffffff }
  else
    { c with hi := n % d, lo := n / d }

/-- Source `Cpu::op_add`: signed addition; overflow raises the Overflow
exception without writing the destination. -/
def op_add (i : Instruction) (c : Cpu) : Cpu :=
  let s := toSigned (c.reg i.s)
  let t := toSigned (c.reg i.t)
  let c := c.delayed_load
  match i32CheckedAdd s t with
  | some v => c.set_reg i.d (toU32 v)
  | none => c.exception .Overflow

/-- Source `Cpu::op_addu`. -/
def op_addu (i : Instruction) (c : Cpu) : Cpu :=
  let v := wadd (c.reg i.s) (c.reg i.t)
  (c.delayed_load).set_reg i.d v

/-- Source `Cpu::op_sub`. -/
def op_sub (i : Instruction) (c : Cpu) : Cpu :=
  let s := toSigned (c.reg i.s)
  let t := toSigned (c.reg i.t)
  let c := c.delayed_load
  match i32CheckedSub s t with
  | some v => c.set_reg i.d (toU32 v)
  | none => c.exception .Overflow

/-- Source `Cpu::op_subu`. -/
def op_subu (i : Instruction) (c : Cpu) : Cpu :=
  let v := wsub (c.reg i.s) (c.reg i.t)
  (c.delayed_load).set_reg i.d v

/-- Source `Cpu::op_and`. -/
def op_and (i : Instruction) (c : Cpu) : Cpu :=
  let v := c.reg i.s &&& c.reg i.t
  (c.delayed_load).set_reg i.d v

/-- Source `Cpu::op_or`. -/
def op_or (i : Instruction) (c : Cpu) : Cpu :=
  let v := c.reg i.s ||| c.reg i.t
  (c.delayed_load).set_reg i.d v

/-- Source `Cpu::op_xor`. -/
def op_xor (i : Instruction) (c : Cpu) : Cpu :=
  let v := c.reg i.s ^^^ c.reg i.t
  (c.delayed_load).set_reg i.d v

/-- Source `Cpu::op_nor`: 32-bit complement of the disjunction. -/
def op_nor (i : Instruction) (c : Cpu) : Cpu :=
  let v := 4294967295 ^^^ (c.reg i.s ||| c.reg i.t)
  (c.delayed_load).set_reg i.d v

/-- Source `Cpu::op_slt`. -/
def op_slt (i : Instruction) (c : Cpu) : Cpu :=
  let s := toSigned (c.reg i.s)
  let t := toSigned (c.reg i.t)
  let c := c.delayed_load
  c.set_reg i.d (if s < t then 1 else 0)

/-- Source `Cpu::op_sltu`. -/
def op_sltu (i : Instruction) (c : Cpu) : Cpu :=
  let v := if c.reg i.s < c.reg i.t then 1 else 0
  (c.delayed_load).set_reg i.d v

/-- Source `Cpu::op_j`: target is the jump immediate within the current
256 MiB segment of the (already advanced) PC. -/
def op_j (i : Instruction) (c : Cpu) : Cpu :=
  let c := { c with next_pc := (c.pc &&& 0xf0000000) ||| (i.imm_jump <<< 2),
                    branch := true }
  c.delayed_load

/-- Source `Cpu::op_jal`: `op_j` plus an unconditional link into R31. -/
def op_jal (i : Instruction) (c : Cpu) : Cpu :=
  let ra := c.next_pc
  let c := op_j i c
  { c.set_reg 31 ra with branch := true }

/-- Source `Cpu::op_beq`. -/
def op_beq (i : Instruction) (c : Cpu) : Cpu :=
  let c := if c.reg i.s = c.reg i.t then c.branchTo i.imm_se else c
  c.delayed_load

/-- Source `Cpu::op_bne`. -/
def op_bne (i : Instruction) (c : Cpu) : Cpu :=
  let c := if c.reg i.s ≠ c.reg i.t then c.branchTo i.imm_se else c
  c.delayed_load

/-- Source `Cpu::op_blez`. -/
def op_blez (i : Instruction) (c : Cpu) : Cpu :=
  let c := if toSigned (c.reg i.s) ≤ 0 then c.branchTo i.imm_se else c
  c.delayed_load

/-- Source `Cpu::op_bgtz`. -/
def op_bgtz (i : Instruction) (c : Cpu) : Cpu :=
  let c := if 0 < toSigned (c.reg i.s) then c.branchTo i.imm_se else c
  c.delayed_load

/-- Source `Cpu::op_addi`. -/
def op_addi (i : Instruction) (c : Cpu) : Cpu :=
  let im := toSigned i.imm_se
  let s := toSigned (c.reg i.s)
  let c := c.delayed_load
  match i32CheckedAdd s im with
  | some v => c.set_reg i.t (toU32 v)
  | none => c.exception .Overflow

/-- Source `Cpu::op_addiu`. -/
def op_addiu (i : Instruction) (c : Cpu) : Cpu :=
  let v := wadd (c.reg i.s) i.imm_se
  (c.delayed_load).set_reg i.t v

/-- Source `Cpu::op_slti`. -/
def op_slti (i : Instruction) (c : Cpu) : Cpu :=
  let v := if toSigned (c.reg i.s) < toSigned i.imm_se then 1 else 0
  (c.delayed_load).set_reg i.t v

/-- Source `Cpu::op_sltiu`. -/
def op_sltiu (i : Instruction) (c : Cpu) : Cpu :=
  let v := if c.reg i.s < i.imm_se then 1 else 0
  (c.delayed_load).set_reg i.t v

/-- Source `Cpu::op_andi`. -/
def op_andi (i : Instruction) (c : Cpu) : Cpu :=
  let v := c.reg i.s &&& i.imm
  (c.delayed_load).set_reg i.t v

/-- Source `Cpu::op_ori`. -/
def op_ori (i : Instruction) (c : Cpu) : Cpu :=
  let v := c.reg i.s ||| i.imm
  (c.delayed_load).set_reg i.t v

/-- Source `Cpu::op_xori`. -/
def op_xori (i : Instruction) (c : Cpu) : Cpu :=
  let v := c.reg i.s ^^^ i.imm
  (c.delayed_load).set_reg i.t v

/-- Source `Cpu::op_lui`. -/
def op_lui (i : Instruction) (c : Cpu) : Cpu :=
  let v := i.imm <<< 16
  (c.delayed_load).set_reg i.t v

/-- Source `Cpu::op_mfc0`: the value read from the named Cop0 register,
`none` for the unhandled indices (a fatal emulator error). -/
def mfc0Read (env : Env) (c : Cpu) (cop_r : Nat) : Option Nat :=
  match cop_r with
  | 6 => some 0
  | 7 => some 0
  | 8 => some 0
  | 12 => some c.cop0.sr
  | 13 => some (c.cop0.causeReg env.irqPending)
  | 14 => some c.cop0.epc
  | 15 => some PROCESSOR_ID
  | _ => none

/-- Source `Cpu::op_mfc0`: the read value is installed through
`delayed_load_chain`. -/
def op_mfc0 (env : Env) (i : Instruction) (c : Cpu) : Option Cpu :=
  (mfc0Read env c i.d).map (fun v => c.delayed_load_chain i.t v)

/-- Source `Cpu::op_mtc0`: breakpoint registers only accept zero writes;
SR and CAUSE are delegated to Cop0; other indices are fatal. -/
def op_mtc0 (i : Instruction) (c : Cpu) : Option Cpu :=
  let v := c.reg i.t
  let c := c.delayed_load
  match i.d with
  | 3 | 5 | 6 | 7 | 9 | 11 => if v ≠ 0 then none else some c
  | 12 => some { c with cop0 := c.cop0.set_sr v }
  | 13 => some { c with cop0 := c.cop0.set_cause v }
  | _ => none

/-- Source `Cpu::op_rfe`: the low six bits must be 0b010000. -/
def op_rfe (i : Instruction) (c : Cpu) : Option Cpu :=
  let c := c.delayed_load
  if i.word &&& 0x3f ≠ 0b010000 then none
  else some { c with cop0 := c.cop0.return_from_exception }

/-- Source `Cpu::op_cop0` dispatch. -/
def op_cop0 (env : Env) (i : Instruction) (c : Cpu) : Option Cpu :=
  match i.cop_opcode with
  | 0b00000 => op_mfc0 env i c
  | 0b00100 => op_mtc0 i c
  | 0b10000 => op_rfe i c
  | _ => none

/-- Source `Cpu::op_cop1` (COP1 does not exist on the PlayStation). -/
def op_cop1 (c : Cpu) : Cpu :=
  c.delayed_load.exception .CoprocessorError

/-- Source `Cpu::op_mfc2`. -/
def op_mfc2 (i : Instruction) (c : Cpu) : Cpu :=
  c.delayed_load_chain i.t (c.gte.data i.d)

/-- Source `Cpu::op_cfc2`. -/
def op_cfc2 (i : Instruction) (c : Cpu) : Cpu :=
  c.delayed_load_chain i.t (c.gte.control i.d)

/-- Source `Cpu::op_mtc2`. -/
def op_mtc2 (i : Instruction) (c : Cpu) : Cpu :=
  let v := c.reg i.t
  let c := c.delayed_load
  { c with gte := c.gte.set_data i.d v }

/-- Source `Cpu::op_ctc2`. -/
def op_ctc2 (i : Instruction) (c : Cpu) : Cpu :=
  let v := c.reg i.t
  let c := c.delayed_load
  { c with gte := c.gte.set_control i.d v }

/-- Source `Cpu::op_cop2`: a set bit 4 of the coprocessor opcode is a GTE
command; otherwise the move sub-opcodes, with a fatal error (none) for
the rest. -/
def op_cop2 (i : Instruction) (c : Cpu) : Option Cpu :=
  if i.cop_opcode &&& 0x10 ≠ 0 then
    some { c with gte := c.gte.command i.word }
  else
    match i.cop_opcode with
    | 0b00000 => some (op_mfc2 i c)
    | 0b00010 => some (op_cfc2 i c)
    | 0b00100 => some (op_mtc2 i c)
    | 0b00110 => some (op_ctc2 i c)
    | _ => none

/-- Source `Cpu::op_cop3` (COP3 does not exist on the PlayStation). -/
def op_cop3 (c : Cpu) : Cpu :=
  c.delayed_load.exception .CoprocessorError

/-- Source `Cpu::op_lb`. -/
def op_lb (env : Env) (i : Instruction) (c : Cpu) : Cpu :=
  let addr := wadd (c.reg i.s) i.imm_se
  let v := sext8 (loadMem env 1 addr)
  c.delayed_load_chain i.t v

/-- Source `Cpu::op_lh`. -/
def op_lh (env : Env) (i : Instruction) (c : Cpu) : Cpu :=
  let addr := wadd (c.reg i.s) i.imm_se
  if addr % 2 = 0 then
    c.delayed_load_chain i.t (sext16 (loadMem env 2 addr))
  else
    c.delayed_load.exception .LoadAddressError

/-- Source `Cpu::op_lwl` merge table indexed by `addr & 3` (the source
`unreachable!` arm cannot be hit since `addr & 3 < 4`). -/
def lwlMerge (k cur w : Nat) : Nat :=
  match k with
  | 0 => (cur &&& 0x00ffffff) ||| w32 (w <<< 24)
  | 1 => (cur &&& 0x0000ffff) ||| w32 (w <<< 16)
  | 2 => (cur &&& 0x000000ff) ||| w32 (w <<< 8)
  | _ => (cur &&& 0x00000000) ||| w32 (w <<< 0)

/-- Source `Cpu::op_lwr` merge table indexed by `addr & 3`. -/
def lwrMerge (k cur w : Nat) : Nat :=
  match k with
  | 0 => (cur &&& 0x00000000) ||| (w >>> 0)
  | 1 => (cur &&& 0xff000000) ||| (w >>> 8)
  | 2 => (cur &&& 0xffff0000) ||| (w >>> 16)
  | _ => (cur &&& 0xffffff00) ||| (w >>> 24)

/-- Source `Cpu::op_lwl`: merges with the in-flight load when it targets
the same register, then installs the result through the chain. -/
def op_lwl (env : Env) (i : Instruction) (c : Cpu) : Cpu :=
  let addr := wadd (c.reg i.s) i.imm_se
  let cur_v := if c.load.1 = i.t then c.load.2 else c.reg i.t
  let aligned_addr := addr &&& 0xfffffffc
  let aligned_word := loadMem env 4 aligned_addr
  c.delayed_load_chain i.t (lwlMerge (addr &&& 3) cur_v aligned_word)

/-- Source `Cpu::op_lw`. -/
def op_lw (env : Env) (i : Instruction) (c : Cpu) : Cpu :=
  let addr := wadd (c.reg i.s) i.imm_se
  if addr % 4 = 0 then
    c.delayed_load_chain i.t (loadMem env 4 addr)
  else
    c.delayed_load.exception .LoadAddressError

/-- Source `Cpu::op_lbu`. -/
def op_lbu (env : Env) (i : Instruction) (c : Cpu) : Cpu :=
  let addr := wadd (c.reg i.s) i.imm_se
  c.delayed_load_chain i.t (loadMem env 1 addr)

/-- Source `Cpu::op_lhu`. -/
def op_lhu (env : Env) (i : Instruction) (c : Cpu) : Cpu :=
  let addr := wadd (c.reg i.s) i.imm_se
  if addr % 2 = 0 then
    c.delayed_load_chain i.t (loadMem env 2 addr)
  else
    c.delayed_load.exception .LoadAddressError

/-- Source `Cpu::op_lwr`. -/
def op_lwr (env : Env) (i : Instruction) (c : Cpu) : Cpu :=
  let addr := wadd (c.reg i.s) i.imm_se
  let cur_v := if c.load.1 = i.t then c.load.2 else c.reg i.t
  let aligned_addr := addr &&& 0xfffffffc
  let aligned_word := loadMem env 4 aligned_addr
  c.delayed_load_chain i.t (lwrMerge (addr &&& 3) cur_v aligned_word)

/-- Source `Cpu::op_sb`. -/
def op_sb (env : Env) (i : Instruction) (c : Cpu) : Option Cpu :=
  let addr := wadd (c.reg i.s) i.imm_se
  let v := c.reg i.t
  (c.delayed_load).store env 1 addr v

/-- Source `Cpu::op_sh`. -/
def op_sh (env : Env) (i : Instruction) (c : Cpu) : Option Cpu :=
  let addr := wadd (c.reg i.s) i.imm_se
  let v := c.reg i.t
  let c := c.delayed_load
  if addr % 2 = 0 then c.store env 2 addr v
  else some (c.exception .StoreAddressError)

/-- Source `Cpu::op_swl` merge table indexed by `addr & 3`. -/
def swlMerge (k mem v : Nat) : Nat :=
  match k with
  | 0 => (mem &&& 0xffffff00) ||| (v >>> 24)
  | 1 => (mem &&& 0xffff0000) ||| (v >>> 16)
  | 2 => (mem &&& 0xff000000) ||| (v >>> 8)
  | _ => (mem &&& 0x00000000) ||| (v >>> 0)

/-- Source `Cpu::op_swr` merge table indexed by `addr & 3`. -/
def swrMerge (k mem v : Nat) : Nat :=
  match k with
  | 0 => (mem &&& 0x00000000) ||| w32 (v <<< 0)
  | 1 => (mem &&& 0x000000ff) ||| w32 (v <<< 8)
  | 2 => (mem &&& 0x0000ffff) ||| w32 (v <<< 16)
  | _ => (mem &&& 0x00ffffff) ||| w32 (v <<< 24)

/-- Source `Cpu::op_swl`. -/
def op_swl (env : Env) (i : Instruction) (c : Cpu) : Option Cpu :=
  let addr := wadd (c.reg i.s) i.imm_se
  let v := c.reg i.t
  let aligned_addr := addr &&& 0xfffffffc
  let cur_mem := loadMem env 4 aligned_addr
  let mem := swlMerge (addr &&& 3) cur_mem v
  (c.delayed_load).store env 4 aligned_addr mem

/-- Source `Cpu::op_sw`. -/
def op_sw (env : Env) (i : Instruction) (c : Cpu) : Option Cpu :=
  let addr := wadd (c.reg i.s) i.imm_se
  let v := c.reg i.t
  let c := c.delayed_load
  if addr % 4 = 0 then c.store env 4 addr v
  else some (c.exception .StoreAddressError)

/-- Source `Cpu::op_swr`. -/
def op_swr (env : Env) (i : Instruction) (c : Cpu) : Option Cpu :=
  let addr := wadd (c.reg i.s) i.imm_se
  let v := c.reg i.t
  let aligned_addr := addr &&& 0xfffffffc
  let cur_mem := loadMem env 4 aligned_addr
  let mem := swrMerge (addr &&& 3) cur_mem v
  (c.delayed_load).store env 4 aligned_addr mem

/-- Source `Cpu::op_lwc0` / `op_lwc1` / `op_lwc3` / `op_swc0` /
`op_swc1` / `op_swc3`: unsupported coprocessor word transfers raise the
CoprocessorError exception after committing the pending load. -/
def op_cop_unsupported (c : Cpu) : Cpu :=
  c.delayed_load.exception .CoprocessorError

/-- Source `Cpu::op_lwc2`. -/
def op_lwc2 (env : Env) (i : Instruction) (c : Cpu) : Cpu :=
  let addr := wadd (c.reg i.s) i.imm_se
  let c := c.delayed_load
  if addr % 4 = 0 then
    { c with gte := c.gte.set_data i.t (loadMem env 4 addr) }
  else
    c.exception .LoadAddressError

/-- Source `Cpu::op_swc2`: note the misaligned case raises
LoadAddressError (not StoreAddressError). -/
def op_swc2 (env : Env) (i : Instruction) (c : Cpu) : Option Cpu :=
  let addr := wadd (c.reg i.s) i.imm_se
  let v := c.gte.data i.t
  let c := c.delayed_load
  if addr % 4 = 0 then c.store env 4 addr v
  else some (c.exception .LoadAddressError)

/-- Source `Cpu::decode_and_execute`: one tick of execution time, then
the dispatch on the primary function field, with a nested dispatch on
the subfunction for SPECIAL. -/
def decode_and_execute (env : Env) (i : Instruction) (c : Cpu) :
    Option Cpu :=
  let c := { c with ticks := c.ticks + 1 }
  match i.function with
  | 0b000000 =>
    match i.subfunction with
    | 0b000000 => some (op_sll i c)
    | 0b000010 => some (op_srl i c)
    | 0b000011 => some (op_sra i c)
    | 0b000100 => some (op_sllv i c)
    | 0b000110 => some (op_srlv i c)
    | 0b000111 => some (op_srav i c)
    | 0b001000 => some (op_jr i c)
    | 0b001001 => some (op_jalr i c)
    | 0b001100 => some (op_syscall c)
    | 0b001101 => some (op_break c)
    | 0b010000 => some (op_mfhi i c)
    | 0b010001 => some (op_mthi i c)
    | 0b010010 => some (op_mflo i c)
    | 0b010011 => some (op_mtlo i c)
    | 0b011000 => some (op_mult i c)
    | 0b011001 => some (op_multu i c)
    | 0b011010 => some (op_div i c)
    | 0b011011 => some (op_divu i c)
    | 0b100000 => some (op_add i c)
    | 0b100001 => some (op_addu i c)
    | 0b100010 => some (op_sub i c)
    | 0b100011 => some (op_subu i c)
    | 0b100100 => some (op_and i c)
    | 0b100101 => some (op_or i c)
    | 0b100110 => some (op_xor i c)
    | 0b100111 => some (op_nor i c)
    | 0b101010 => some (op_slt i c)
    | 0b101011 => some (op_sltu i c)
    | _ => some (op_illegal c)
  | 0b000001 => some (op_bxx i c)
  | 0b000010 => some (op_j i c)
  | 0b000011 => some (op_jal i c)
  | 0b000100 => some (op_beq i c)
  | 0b000101 => some (op_bne i c)
  | 0b000110 => some (op_blez i c)
  | 0b000111 => some (op_bgtz i c)
  | 0b001000 => some (op_addi i c)
  | 0b001001 => some (op_addiu i c)
  | 0b001010 => some (op_slti i c)
  | 0b001011 => some (op_sltiu i c)
  | 0b001100 => some (op_andi i c)
  | 0b001101 => some (op_ori i c)
  | 0b001110 => some (op_xori i c)
  | 0b001111 => some (op_lui i c)
  | 0b010000 => op_cop0 env i c
  | 0b010001 => some (op_cop1 c)
  | 0b010010 => op_cop2 i c
  | 0b010011 => some (op_cop3 c)
  | 0b100000 => some (op_lb env i c)
  | 0b100001 => some (op_lh env i c)
  | 0b100010 => some (op_lwl env i c)
  | 0b100011 => some (op_lw env i c)
  | 0b100100 => some (op_lbu env i c)
  | 0b100101 => some (op_lhu env i c)
  | 0b100110 => some (op_lwr env i c)
  | 0b101000 => op_sb env i c
  | 0b101001 => op_sh env i c
  | 0b101010 => op_swl env i c
  | 0b101011 => op_sw env i c
  | 0b101110 => op_swr env i c
  | 0b110000 => some (op_cop_unsupported c)
  | 0b110001 => some (op_cop_unsupported c)
  | 0b110010 => some (op_lwc2 env i c)
  | 0b110011 => some (op_cop_unsupported c)
  | 0b111000 => some (op_cop_unsupported c)
  | 0b111001 => some (op_cop_unsupported c)
  | 0b111010 => op_swc2 env i c
  | 0b111011 => some (op_cop_unsupported c)
  | _ => some (op_illegal c)

/-- Source `Cpu::fetch_instruction`: KUSEG/KSEG0 go through the
instruction cache when it is enabled (refilling the line from `index` on
a miss); otherwise an uncached 4-tick fetch. -/
def fetch_instruction (env : Env) (c : Cpu) : Cpu × Instruction :=
  let pc := c.current_pc
  let cached := pc < 0xa0000000
  if cached && env.icacheEnabled then
    let tag := pc &&& 0x7ffff000
    let li := (pc >>> 4) &&& 0xff
    let index := (pc >>> 2) &&& 3
    let l := c.icache li
    if l.tag ≠ tag ∨ index < l.valid_index then
      let l' : ICacheLine :=
        { tag_valid := pc &&& 0x7ffff00c,
          line := fun j =>
            if index ≤ j ∧ j < 4 then env.loadInstrF (pc + 4 * (j - index))
            else l.line j }
      let c := { c with
        icache := fun j => if j = li then l' else c.icache j,
        ticks := c.ticks + 3 + (4 - index) }
      (c, ⟨l'.instruction index⟩)
    else
      (c, ⟨l.instruction index⟩)
  else
    ({ c with ticks := c.ticks + 4 }, ⟨env.loadInstrF pc⟩)

/-- Source `Cpu::run_next_instruction` from the `current_pc` snapshot
on: raise LoadAddressError on a misaligned PC (before the fetch),
otherwise fetch, advance the PC pair, roll the branch flag into
`delay_slot`, then either take a pending interrupt (pre-executing the
instruction when `is_gte_op`) or dispatch it. -/
def step_after_sync (env : Env) (c : Cpu) : Option Cpu :=
  let c := { c with current_pc := c.pc }
  if c.current_pc % 4 ≠ 0 then
    some (c.exception .LoadAddressError)
  else
    match fetch_instruction env c with
    | (c, instruction) =>
      let c := { c with
        pc := c.next_pc,
        next_pc := wadd c.next_pc 4,
        delay_slot := c.branch,
        branch := false }
      if c.cop0.irq_active env.irqPending then
        let step : Option Cpu :=
          if instruction.is_gte_op then decode_and_execute env instruction c
          else some c
        step.map
          (fun c => Cpu.exception { c with ticks := c.ticks + 1 } .Interrupt)
      else
        decode_and_execute env instruction c

/-- Source `Cpu::run_next_instruction`: drain a pending peripheral sync
(the interconnect `sync` is an external effect; the timekeeper flag is
cleared), then run the rest of the step. -/
def run_next_instruction (env : Env) (c : Cpu) : Option Cpu :=
  step_after_sync env (if c.syncPending then { c with syncPending := false } else c)

end Cpu

/-- BIOS images are always 512 KiB (source `BIOS_SIZE`). -/
def BIOS_SIZE : Nat := 524288

/-- Disc region (source `cdrom::disc::Region`, referenced by the BIOS
metadata; the definition is not under `src/` and is modelled from the
spec's region list). -/
inductive Region where
  | NorthAmerica
  | Japan
  | Europe
deriving DecidableEq

/-- Modelled from the spec: `bios/db.rs` is not under `src/`.  BIOS
metadata: SHA-256 digest, version, region, known-bad flag, optional
animation-jump hook offset, and whether a debug-UART patch function is
supplied. -/
structure Metadata where
  sha256 : List Nat
  version_major : Nat
  version_minor : Nat
  region : Region
  known_bad : Bool
  animation_jump_hook : Option Nat
  has_patch_debug_uart : Bool

/-- BIOS image (source `struct Bios`): 512 KiB of data plus a reference
into the metadata database. -/
structure Bios where
  data : List Nat
  metadata : Metadata

/-- Source `DUMMY_METADATA`: placeholder metadata for dummy BIOS
instances. -/
def DUMMY_METADATA : Metadata :=
  { sha256 := List.replicate 32 0xff,
    version_major := 0,
    version_minor := 0,
    region := .NorthAmerica,
    known_bad := true,
    animation_jump_hook := none,
    has_patch_debug_uart := false }

/-- Source `Bios::dummy` data: byte `i` is
`(0x7badb105 >> ((i % 4) * 2)) as u8`. -/
def dummyBiosData : List Nat :=
  (List.range BIOS_SIZE).map (fun i => (0x7badb105 >>> ((i % 4) * 2)) % 256)

namespace Bios

/-- Source `Bios::dummy`. -/
def dummy : Bios := { data := dummyBiosData, metadata := DUMMY_METADATA }

/-- Source `impl Serialize for Bios`: the serialized form is the
sequence of the 32 bytes of the metadata's SHA-256 digest, element by
element. -/
def serialize (b : Bios) : List Nat := b.metadata.sha256

/-- Source `impl Deserialize for Bios` (the digest database lookup
`db::lookup_sha256` is modelled from the spec, as `bios/db.rs` is not
under `src/`, by the function argument `db`): read 32 bytes (failing on
a short sequence like the serde visitor does), look the digest up, fail
with "unknown BIOS checksum" when it is unknown, and otherwise return a
dummy (placeholder) image carrying the database's metadata. -/
def deserialize (db : List Nat → Option Metadata) (input : List Nat) :
    Except String Bios :=
  if input.length < 32 then Except.error "invalid length"
  else
    match db (input.take 32) with
    | none => Except.error "unknown BIOS checksum"
    | some meta => Except.ok { dummy with metadata := meta }

/-- Source `Bios::load` loop, unrolled from its last iteration: after
`n` iterations the accumulator holds the or-ed little-endian bytes, and
an out-of-bounds index is the Rust panic (`none`). -/
def loadAcc (data : List Nat) (offset : Nat) : Nat → Option Nat
  | 0 => some 0
  | n + 1 =>
    (loadAcc data offset n).bind fun r =>
      (data[offset + n]?).map fun b => r ||| (b <<< (8 * n))

/-- Source `Bios::load`: fetch the little-endian value of the given
width at `offset` by unchecked indexing of the data array. -/
def load (b : Bios) (width offset : Nat) : Option Nat :=
  loadAcc b.data offset width

end Bios

/-- Interconnect/shared-state model in which every memory load returns
zero, the instruction cache is disabled and no interrupt is pending;
used for the concrete evaluations below. -/
def zeroEnv : Env :=
  { loadByteF := fun _ => 0,
    loadHalfF := fun _ => 0,
    loadWordF := fun _ => 0,
    loadInstrF := fun _ => 0,
    icacheEnabled := false,
    tagTestMode := false,
    irqPending := false }

/-- Concrete all-zero CPU state used by the concrete evaluations below. -/
def zeroCpu : Cpu :=
  { pc := 0,
    next_pc := 4,
    current_pc := 0,
    regs := fun _ => 0,
    hi := 0,
    lo := 0,
    icache := fun _ => { tag_valid := 0, line := fun _ => 0 },
    cop0 := { sr := 0, cause := 0, epc := 0 },
    gte := { dataF := fun _ => 0, controlF := fun _ => 0, commands := [] },
    load := (0, 0),
    branch := false,
    delay_slot := false,
    debug_on_break := false,
    stores := [],
    ticks := 0,
    syncPending := false }

/-- Concrete state for the C2 counterexample: the previous instruction
was a branch whose target `next_pc = 5` is misaligned (as a JR to an
unaligned register value produces). -/
def c2Cpu : Cpu := { zeroCpu with pc := 4, next_pc := 5, branch := true }

/-- Environment for the C1 evaluation: an interrupt is pending and the
next instruction word is 0x4A000000, a GTE (COP2) command. -/
def c1Env : Env := { zeroEnv with loadInstrF := fun _ => 0x4A000000,
                                  irqPending := true }

/-- CPU state for the C1 evaluation: executing from 0x80000000 with the
interrupt unmasked in SR (IM bit 10 and IEc set, BEV clear). -/
def c1Cpu : Cpu := { zeroCpu with pc := 0x80000000, next_pc := 0x80000004,
                                  cop0 := { sr := 0x401, cause := 0, epc := 0 } }

/-- Memory for the C6 counterexample: the aligned word at 0 holds bytes
01 02 03 04 and the word at 4 holds bytes 05 06 07 08 (little-endian). -/
def c6Env : Env :=
  { zeroEnv with loadWordF := fun a => if a = 0 then 0x04030201 else 0x08070605 }

/-- CPU state for the C6 counterexample: r1 = 1 and r3 = 2 provide the
two effective addresses (1 and 1 XOR 3 = 2). -/
def c6Cpu : Cpu :=
  { zeroCpu with regs := fun j => if j = 1 then 1 else if j = 3 then 2 else 0 }

/-- LWL instruction for the C6 counterexample: source register 1, target
register 2, offset 0 (the function field is irrelevant when invoking
`op_lwl` directly). -/
def c6Lwl : Instruction := ⟨(1 <<< 21) ||| (2 <<< 16)⟩

/-- LWR instruction for the C6 counterexample: source register 3, target
register 2, offset 0. -/
def c6Lwr : Instruction := ⟨(3 <<< 21) ||| (2 <<< 16)⟩

/-- Little-endian byte of memory at an arbitrary (possibly unaligned)
address, extracted from the aligned word that contains it. -/
def byteAt (env : Env) (a : Nat) : Nat :=
  (env.loadWordF (a - a % 4) >>> (8 * (a % 4))) &&& 0xff

/-- The unaligned 32-bit little-endian word starting at address `a`. -/
def unalignedWordAt (env : Env) (a : Nat) : Nat :=
  byteAt env a + byteAt env (a + 1) * 256 + byteAt env (a + 2) * 65536 +
    byteAt env (a + 3) * 16777216

/-- Concrete misaligned-PC state for the C2 witness. -/
def c2wCpu : Cpu := { zeroCpu with pc := 1 }

/-- Concrete state with a pending delayed load `(5, 7)` for the C3
witness. -/
def c3Cpu : Cpu := { zeroCpu with load := (5, 7) }

/-- Concrete register file for the C4/C5 witnesses: r1 = 0x7fffffff,
r2 = 1, every other register 0. -/
def c4Cpu : Cpu :=
  { zeroCpu with
    regs := fun j => if j = 1 then 0x7fffffff else if j = 2 then 1 else 0 }

/-- ADD r3, r1, r2 (overflows on `c4Cpu`). -/
def c4AddOvf : Instruction := ⟨(1 <<< 21) ||| (2 <<< 16) ||| (3 <<< 11) ||| 0x20⟩

/-- ADD r3, r0, r2 (no overflow on `c4Cpu`). -/
def c4AddOk : Instruction := ⟨(2 <<< 16) ||| (3 <<< 11) ||| 0x20⟩

/-- DIV r1, r4 (division of 0x7fffffff by zero on `c4Cpu`). -/
def c5DivByZero : Instruction := ⟨(1 <<< 21) ||| (4 <<< 16) ||| 0x1a⟩

/-- Concrete state for the C8 witness: pending load `(2, 77)` and
distinguishable GTE register values. -/
def c8Cpu : Cpu :=
  { zeroCpu with
    load := (2, 77),
    gte := { dataF := fun r => 100 + r, controlF := fun r => 200 + r,
             commands := [] } }

/-- Coprocessor move instruction for the C8 witness: t = 2, d = 12. -/
def c8I : Instruction := ⟨(2 <<< 16) ||| (12 <<< 11)⟩

/-- SWC2 with source register 1 and offset 0 for the C9 witness. -/
def c9I : Instruction := ⟨(1 <<< 21)⟩

/-- Concrete state for the C9 witness: r1 = 2 gives the misaligned
effective address 2. -/
def c9Cpu : Cpu := { zeroCpu with regs := fun j => if j = 1 then 2 else 0 }

/-- Constant-memory environment for the C6 witness. -/
def c6wEnv : Env := { zeroEnv with loadWordF := fun _ => 0x11223344 }

/-- Concrete state for the C6 witness: r1 = 7 (the LWL address) and
r3 = 4 (the LWR address, 7 - 3). -/
def c6wCpu : Cpu :=
  { zeroCpu with regs := fun j => if j = 1 then 7 else if j = 3 then 4 else 0 }

/-- Metadata entry for the C7 witness database. -/
def c7Meta : Metadata :=
  { sha256 := List.replicate 32 1,
    version_major := 4,
    version_minor := 1,
    region := .Europe,
    known_bad := false,
    animation_jump_hook := some 100,
    has_patch_debug_uart := true }

/-- One-entry digest database for the C7 witness. -/
def c7Db : List Nat → Option Metadata :=
  fun d => if d = List.replicate 32 1 then some c7Meta else none

namespace Cpu

@[simp] theorem delay_slot_set_reg (c : Cpu) (i v : Nat) :
    (c.set_reg i v).delay_slot = c.delay_slot := rfl

@[simp] theorem delay_slot_delayed_load (c : Cpu) :
    c.delayed_load.delay_slot = c.delay_slot := rfl

@[simp] theorem delay_slot_delayed_load_chain (c : Cpu) (r v : Nat) :
    (c.delayed_load_chain r v).delay_slot = c.delay_slot := by
  unfold delayed_load_chain
  try dsimp only
  split <;> rfl

@[simp] theorem delay_slot_branchTo (c : Cpu) (o : Nat) :
    (c.branchTo o).delay_slot = c.delay_slot := rfl

@[simp] theorem delay_slot_exception (c : Cpu) (e : Exception) :
    (c.exception e).delay_slot = c.delay_slot := rfl

@[simp] theorem delay_slot_ite (P : Prop) [Decidable P] (a b : Cpu) :
    (if P then a else b).delay_slot =
      if P then a.delay_slot else b.delay_slot := by
  split <;> rfl

@[simp] theorem branch_ite (P : Prop) [Decidable P] (a b : Cpu) :
    (if P then a else b).branch = if P then a.branch else b.branch := by
  split <;> rfl

theorem delay_slot_cache_maintenance {env : Env} {c c' : Cpu}
    {w a v : Nat} (h : cache_maintenance env c w a v = some c') :
    c'.delay_slot = c.delay_slot := by
  unfold cache_maintenance at h
  try dsimp only at h
  split at h
  · exact Option.noConfusion h
  · split at h
    · exact Option.noConfusion h
    · cases h; rfl

theorem delay_slot_store {env : Env} {c c' : Cpu} {w a v : Nat}
    (h : store env c w a v = some c') : c'.delay_slot = c.delay_slot := by
  unfold store at h
  try dsimp only at h
  split at h
  · exact delay_slot_cache_maintenance h
  · cases h; rfl

@[simp] theorem delay_slot_op_illegal (c : Cpu) :
    (op_illegal c).delay_slot = c.delay_slot := by simp [op_illegal]

@[simp] theorem delay_slot_op_sll (i : Instruction) (c : Cpu) :
    (op_sll i c).delay_slot = c.delay_slot := by simp [op_sll]

@[simp] theorem delay_slot_op_srl (i : Instruction) (c : Cpu) :
    (op_srl i c).delay_slot = c.delay_slot := by simp [op_srl]

@[simp] theorem delay_slot_op_sra (i : Instruction) (c : Cpu) :
    (op_sra i c).delay_slot = c.delay_slot := by simp [op_sra]

@[simp] theorem delay_slot_op_sllv (i : Instruction) (c : Cpu) :
    (op_sllv i c).delay_slot = c.delay_slot := by simp [op_sllv]

@[simp] theorem delay_slot_op_srlv (i : Instruction) (c : Cpu) :
    (op_srlv i c).delay_slot = c.delay_slot := by simp [op_srlv]

@[simp] theorem delay_slot_op_srav (i : Instruction) (c : Cpu) :
    (op_srav i c).delay_slot = c.delay_slot := by simp [op_srav]

@[simp] theorem delay_slot_op_bxx (i : Instruction) (c : Cpu) :
    (op_bxx i c).delay_slot = c.delay_slot := by simp [op_bxx]

@[simp] theorem delay_slot_op_jr (i : Instruction) (c : Cpu) :
    (op_jr i c).delay_slot = c.delay_slot := by simp [op_jr]

@[simp] theorem delay_slot_op_jalr (i : Instruction) (c : Cpu) :
    (op_jalr i c).delay_slot = c.delay_slot := by simp [op_jalr]

@[simp] theorem delay_slot_op_syscall (c : Cpu) :
    (op_syscall c).delay_slot = c.delay_slot := by simp [op_syscall]

@[simp] theorem delay_slot_op_break (c : Cpu) :
    (op_break c).delay_slot = c.delay_slot := by
  unfold op_break
  try dsimp only
  split <;> simp

@[simp] theorem delay_slot_op_mfhi (i : Instruction) (c : Cpu) :
    (op_mfhi i c).delay_slot = c.delay_slot := by simp [op_mfhi]

@[simp] theorem delay_slot_op_mthi (i : Instruction) (c : Cpu) :
    (op_mthi i c).delay_slot = c.delay_slot := by simp [op_mthi]

@[simp] theorem delay_slot_op_mflo (i : Instruction) (c : Cpu) :
    (op_mflo i c).delay_slot = c.delay_slot := by simp [op_mflo]

@[simp] theorem delay_slot_op_mtlo (i : Instruction) (c : Cpu) :
    (op_mtlo i c).delay_slot = c.delay_slot := by simp [op_mtlo]

@[simp] theorem delay_slot_op_mult (i : Instruction) (c : Cpu) :
    (op_mult i c).delay_slot = c.delay_slot := by simp [op_mult]

@[simp] theorem delay_slot_op_multu (i : Instruction) (c : Cpu) :
    (op_multu i c).delay_slot = c.delay_slot := by simp [op_multu]

@[simp] theorem delay_slot_op_div (i : Instruction) (c : Cpu) :
    (op_div i c).delay_slot = c.delay_slot := by
  unfold op_div
  try dsimp only
  split <;> [rfl; split <;> rfl]

@[simp] theorem delay_slot_op_divu (i : Instruction) (c : Cpu) :
    (op_divu i c).delay_slot = c.delay_slot := by
  unfold op_divu
  try dsimp only
  split <;> rfl

@[simp] theorem delay_slot_op_add (i : Instruction) (c : Cpu) :
    (op_add i c).delay_slot = c.delay_slot := by
  unfold op_add
  try dsimp only
  cases i32CheckedAdd (toSigned (c.reg i.s)) (toSigned (c.reg i.t)) <;> simp

@[simp] theorem delay_slot_op_addu (i : Instruction) (c : Cpu) :
    (op_addu i c).delay_slot = c.delay_slot := by simp [op_addu]

@[simp] theorem delay_slot_op_sub (i : Instruction) (c : Cpu) :
    (op_sub i c).delay_slot = c.delay_slot := by
  unfold op_sub
  try dsimp only
  cases i32CheckedSub (toSigned (c.reg i.s)) (toSigned (c.reg i.t)) <;> simp

@[simp] theorem delay_slot_op_subu (i : Instruction) (c : Cpu) :
    (op_subu i c).delay_slot = c.delay_slot := by simp [op_subu]

@[simp] theorem delay_slot_op_and (i : Instruction) (c : Cpu) :
    (op_and i c).delay_slot = c.delay_slot := by simp [op_and]

@[simp] theorem delay_slot_op_or (i : Instruction) (c : Cpu) :
    (op_or i c).delay_slot = c.delay_slot := by simp [op_or]

@[simp] theorem delay_slot_op_xor (i : Instruction) (c : Cpu) :
    (op_xor i c).delay_slot = c.delay_slot := by simp [op_xor]

@[simp] theorem delay_slot_op_nor (i : Instruction) (c : Cpu) :
    (op_nor i c).delay_slot = c.delay_slot := by simp [op_nor]

@[simp] theorem delay_slot_op_slt (i : Instruction) (c : Cpu) :
    (op_slt i c).delay_slot = c.delay_slot := by simp [op_slt]

@[simp] theorem delay_slot_op_sltu (i : Instruction) (c : Cpu) :
    (op_sltu i c).delay_slot = c.delay_slot := by simp [op_sltu]

@[simp] theorem delay_slot_op_j (i : Instruction) (c : Cpu) :
    (op_j i c).delay_slot = c.delay_slot := by simp [op_j]

@[simp] theorem delay_slot_op_jal (i : Instruction) (c : Cpu) :
    (op_jal i c).delay_slot = c.delay_slot := by simp [op_jal]

@[simp] theorem delay_slot_op_beq (i : Instruction) (c : Cpu) :
    (op_beq i c).delay_slot = c.delay_slot := by simp [op_beq]

@[simp] theorem delay_slot_op_bne (i : Instruction) (c : Cpu) :
    (op_bne i c).delay_slot = c.delay_slot := by simp [op_bne]

@[simp] theorem delay_slot_op_blez (i : Instruction) (c : Cpu) :
    (op_blez i c).delay_slot = c.delay_slot := by simp [op_blez]

@[simp] theorem delay_slot_op_bgtz (i : Instruction) (c : Cpu) :
    (op_bgtz i c).delay_slot = c.delay_slot := by simp [op_bgtz]

@[simp] theorem delay_slot_op_addi (i : Instruction) (c : Cpu) :
    (op_addi i c).delay_slot = c.delay_slot := by
  unfold op_addi
  try dsimp only
  cases i32CheckedAdd (toSigned (c.reg i.s)) (toSigned i.imm_se) <;> simp

@[simp] theorem delay_slot_op_addiu (i : Instruction) (c : Cpu) :
    (op_addiu i c).delay_slot = c.delay_slot := by simp [op_addiu]

@[simp] theorem delay_slot_op_slti (i : Instruction) (c : Cpu) :
    (op_slti i c).delay_slot = c.delay_slot := by simp [op_slti]

@[simp] theorem delay_slot_op_sltiu (i : Instruction) (c : Cpu) :
    (op_sltiu i c).delay_slot = c.delay_slot := by simp [op_sltiu]

@[simp] theorem delay_slot_op_andi (i : Instruction) (c : Cpu) :
    (op_andi i c).delay_slot = c.delay_slot := by simp [op_andi]

@[simp] theorem delay_slot_op_ori (i : Instruction) (c : Cpu) :
    (op_ori i c).delay_slot = c.delay_slot := by simp [op_ori]

@[simp] theorem delay_slot_op_xori (i : Instruction) (c : Cpu) :
    (op_xori i c).delay_slot = c.delay_slot := by simp [op_xori]

@[simp] theorem delay_slot_op_lui (i : Instruction) (c : Cpu) :
    (op_lui i c).delay_slot = c.delay_slot := by simp [op_lui]

theorem delay_slot_op_mfc0 {env : Env} {i : Instruction} {c c' : Cpu}
    (h : op_mfc0 env i c = some c') : c'.delay_slot = c.delay_slot := by
  unfold op_mfc0 at h
  cases hm : mfc0Read env c i.d <;> rw [hm] at h
  · exact Option.noConfusion h
  · cases h; simp

theorem delay_slot_op_mtc0 {i : Instruction} {c c' : Cpu}
    (h : op_mtc0 i c = some c') : c'.delay_slot = c.delay_slot := by
  unfold op_mtc0 at h
  try dsimp only at h
  split at h <;> (try split at h) <;>
    first
      | exact Option.noConfusion h
      | (cases h; simp)

theorem delay_slot_op_rfe {i : Instruction} {c c' : Cpu}
    (h : op_rfe i c = some c') : c'.delay_slot = c.delay_slot := by
  unfold op_rfe at h
  try dsimp only at h
  split at h
  · exact Option.noConfusion h
  · cases h; simp

theorem delay_slot_op_cop0 {env : Env} {i : Instruction} {c c' : Cpu}
    (h : op_cop0 env i c = some c') : c'.delay_slot = c.delay_slot := by
  unfold op_cop0 at h
  try dsimp only at h
  split at h
  · exact delay_slot_op_mfc0 h
  · exact delay_slot_op_mtc0 h
  · exact delay_slot_op_rfe h
  · exact Option.noConfusion h

@[simp] theorem delay_slot_op_cop1 (c : Cpu) :
    (op_cop1 c).delay_slot = c.delay_slot := by simp [op_cop1]

@[simp] theorem delay_slot_op_mfc2 (i : Instruction) (c : Cpu) :
    (op_mfc2 i c).delay_slot = c.delay_slot := by simp [op_mfc2]

@[simp] theorem delay_slot_op_cfc2 (i : Instruction) (c : Cpu) :
    (op_cfc2 i c).delay_slot = c.delay_slot := by simp [op_cfc2]

@[simp] theorem delay_slot_op_mtc2 (i : Instruction) (c : Cpu) :
    (op_mtc2 i c).delay_slot = c.delay_slot := by simp [op_mtc2]

@[simp] theorem delay_slot_op_ctc2 (i : Instruction) (c : Cpu) :
    (op_ctc2 i c).delay_slot = c.delay_slot := by simp [op_ctc2]

theorem delay_slot_op_cop2 {i : Instruction} {c c' : Cpu}
    (h : op_cop2 i c = some c') : c'.delay_slot = c.delay_slot := by
  unfold op_cop2 at h
  try dsimp only at h
  split at h
  · cases h; rfl
  · split at h
    · cases h; simp
    · cases h; simp
    · cases h; simp
    · cases h; simp
    · exact Option.noConfusion h

@[simp] theorem delay_slot_op_cop3 (c : Cpu) :
    (op_cop3 c).delay_slot = c.delay_slot := by simp [op_cop3]

@[simp] theorem delay_slot_op_lb (env : Env) (i : Instruction) (c : Cpu) :
    (op_lb env i c).delay_slot = c.delay_slot := by simp [op_lb]

@[simp] theorem delay_slot_op_lh (env : Env) (i : Instruction) (c : Cpu) :
    (op_lh env i c).delay_slot = c.delay_slot := by
  unfold op_lh
  try dsimp only
  split <;> simp

@[simp] theorem delay_slot_op_lwl (env : Env) (i : Instruction) (c : Cpu) :
    (op_lwl env i c).delay_slot = c.delay_slot := by simp [op_lwl]

@[simp] theorem delay_slot_op_lw (env : Env) (i : Instruction) (c : Cpu) :
    (op_lw env i c).delay_slot = c.delay_slot := by
  unfold op_lw
  try dsimp only
  split <;> simp

@[simp] theorem delay_slot_op_lbu (env : Env) (i : Instruction) (c : Cpu) :
    (op_lbu env i c).delay_slot = c.delay_slot := by simp [op_lbu]

@[simp] theorem delay_slot_op_lhu (env : Env) (i : Instruction) (c : Cpu) :
    (op_lhu env i c).delay_slot = c.delay_slot := by
  unfold op_lhu
  try dsimp only
  split <;> simp

@[simp] theorem delay_slot_op_lwr (env : Env) (i : Instruction) (c : Cpu) :
    (op_lwr env i c).delay_slot = c.delay_slot := by simp [op_lwr]

theorem delay_slot_op_sb {env : Env} {i : Instruction} {c c' : Cpu}
    (h : op_sb env i c = some c') : c'.delay_slot = c.delay_slot := by
  unfold op_sb at h
  try dsimp only at h
  exact (delay_slot_store h).trans rfl

theorem delay_slot_op_sh {env : Env} {i : Instruction} {c c' : Cpu}
    (h : op_sh env i c = some c') : c'.delay_slot = c.delay_slot := by
  unfold op_sh at h
  try dsimp only at h
  split at h
  · exact (delay_slot_store h).trans rfl
  · cases h; simp

theorem delay_slot_op_swl {env : Env} {i : Instruction} {c c' : Cpu}
    (h : op_swl env i c = some c') : c'.delay_slot = c.delay_slot := by
  unfold op_swl at h
  try dsimp only at h
  exact (delay_slot_store h).trans rfl

theorem delay_slot_op_sw {env : Env} {i : Instruction} {c c' : Cpu}
    (h : op_sw env i c = some c') : c'.delay_slot = c.delay_slot := by
  unfold op_sw at h
  try dsimp only at h
  split at h
  · exact (delay_slot_store h).trans rfl
  · cases h; simp

theorem delay_slot_op_swr {env : Env} {i : Instruction} {c c' : Cpu}
    (h : op_swr env i c = some c') : c'.delay_slot = c.delay_slot := by
  unfold op_swr at h
  try dsimp only at h
  exact (delay_slot_store h).trans rfl

@[simp] theorem delay_slot_op_cop_unsupported (c : Cpu) :
    (op_cop_unsupported c).delay_slot = c.delay_slot := by
  simp [op_cop_unsupported]

@[simp] theorem delay_slot_op_lwc2 (env : Env) (i : Instruction) (c : Cpu) :
    (op_lwc2 env i c).delay_slot = c.delay_slot := by
  unfold op_lwc2
  try dsimp only
  split <;> simp

theorem delay_slot_op_swc2 {env : Env} {i : Instruction} {c c' : Cpu}
    (h : op_swc2 env i c = some c') : c'.delay_slot = c.delay_slot := by
  unfold op_swc2 at h
  try dsimp only at h
  split at h
  · exact (delay_slot_store h).trans rfl
  · cases h; simp

/-- No dispatched instruction ever writes the `delay_slot` flag: it is
only assigned in `run_next_instruction` itself. -/
theorem delay_slot_decode_and_execute {env : Env} {i : Instruction}
    {c c' : Cpu} (h : decode_and_execute env i c = some c') :
    c'.delay_slot = c.delay_slot := by
  unfold decode_and_execute at h
  try dsimp only at h
  split at h <;>
    first
      | exact (delay_slot_op_cop0 h).trans rfl
      | exact (delay_slot_op_cop2 h).trans rfl
      | exact (delay_slot_op_sb h).trans rfl
      | exact (delay_slot_op_sh h).trans rfl
      | exact (delay_slot_op_swl h).trans rfl
      | exact (delay_slot_op_sw h).trans rfl
      | exact (delay_slot_op_swr h).trans rfl
      | exact (delay_slot_op_swc2 h).trans rfl
      | (cases h; simp)
      | (split at h <;> (cases h; simp))

/-- The instruction fetch only touches the cache and the tick counter,
never the `delay_slot` flag. -/
theorem delay_slot_fetch_instruction (env : Env) (c : Cpu) :
    (fetch_instruction env c).1.delay_slot = c.delay_slot := by
  unfold fetch_instruction
  try dsimp only
  split
  · split <;> rfl
  · rfl

/-- The instruction fetch never touches the `branch` flag. -/
theorem branch_fetch_instruction (env : Env) (c : Cpu) :
    (fetch_instruction env c).1.branch = c.branch := by
  unfold fetch_instruction
  try dsimp only
  split
  · split <;> rfl
  · rfl

end Cpu

/-- Claim C1 (code bug): `is_gte_op` is documented (in the source and in
the spec) to recognise COP2 opcodes (function == 0b010010 = 18), but the
code compares against 0b010001 = 17 — the COP1 opcode, which the
dispatcher sends to `op_cop1`.  Evaluated at the failing inputs: the GTE
command word 0x4A000000 has function field 18 yet `is_gte_op` is false,
while the COP1 word 0x44000000 has function field 17 and `is_gte_op` is
true.  Consequently a step with a pending, unmasked interrupt does not
execute a pending COP2 command before taking the Interrupt exception:
the GTE command log stays empty and the PC lands on the handler. -/
theorem c1_is_gte_op_tests_cop1 :
    Instruction.function ⟨0x4A000000⟩ = 18 ∧
    Instruction.is_gte_op ⟨0x4A000000⟩ = false ∧
    Instruction.function ⟨0x44000000⟩ = 17 ∧
    Instruction.is_gte_op ⟨0x44000000⟩ = true ∧
    (Cpu.run_next_instruction c1Env c1Cpu).map (fun c => c.gte.commands) =
      some [] ∧
    (Cpu.run_next_instruction c1Env c1Cpu).map Cpu.pc = some 0x80000080 := by
  refine ⟨by decide, by decide, by decide, by decide, rfl, rfl⟩

/-- Claim C3: `delayed_load_chain (target, value)` discards the pending
load (never writing it) when it targets the same register as the new
load, otherwise commits it first; either way the new `(target, value)`
pair becomes the single pending load. -/
theorem c3_delayed_load_chain_spec (c : Cpu) (r v : Nat) :
    (c.delayed_load_chain r v).load = (r, v) ∧
    (c.load.1 = r → (c.delayed_load_chain r v).regs = c.regs) ∧
    (c.load.1 ≠ r → ∀ j, (c.delayed_load_chain r v).regs j =
      if j = 0 then 0 else if j = c.load.1 then c.load.2 else c.regs j) := by
  refine ⟨rfl, ?_, ?_⟩
  · intro h
    simp [Cpu.delayed_load_chain, h]
  · intro h j
    simp [Cpu.delayed_load_chain, Cpu.set_reg, h]

theorem delay_slot_step_after_sync {env : Env} {c c' : Cpu}
    (h : Cpu.step_after_sync env c = some c') :
    c'.delay_slot = if c.pc % 4 = 0 then c.branch else c.delay_slot := by
  unfold Cpu.step_after_sync at h
  try dsimp only at h
  split at h
  · rename_i hcond
    cases h
    rw [if_neg (by simpa using hcond)]
    simp
  · rename_i hcond
    rcases hf : Cpu.fetch_instruction env { c with current_pc := c.pc }
      with ⟨c2, instr⟩
    rw [hf] at h
    try dsimp only at h
    have hb : c2.branch = c.branch := by
      have hx := Cpu.branch_fetch_instruction env { c with current_pc := c.pc }
      rw [hf] at hx
      exact hx
    rw [if_pos (by simpa using hcond)]
    split at h
    · rw [Option.map_eq_some'] at h
      obtain ⟨a, ha, rfl⟩ := h
      have hds : a.delay_slot = c2.branch := by
        split at ha
        · exact Cpu.delay_slot_decode_and_execute ha
        · cases ha; rfl
      simpa [hds] using hb
    · have hds := Cpu.delay_slot_decode_and_execute h
      rw [hds]
      exact hb

/-- Claim C2 counterexample: from a state whose previous instruction
branched to the misaligned target 5, the first step ends with
`branch = false`, yet after the second step (which takes the
misaligned-PC early return) `delay_slot` is still `true` — not the
`false` that the claim predicts. -/
theorem c2_counterexample :
    (Cpu.run_next_instruction zeroEnv c2Cpu).map Cpu.branch = some false ∧
    ((Cpu.run_next_instruction zeroEnv c2Cpu).bind
        (Cpu.run_next_instruction zeroEnv)).map Cpu.delay_slot = some true :=
  ⟨rfl, rfl⟩

/-- Claim C2 (amended): after a completed step, `delay_slot` equals the
`branch` flag left by the previous step whenever the step passes the PC
alignment check; the misaligned-PC early-return path (which raises
LoadAddressError before the fetch) leaves `delay_slot` unchanged
instead. -/
theorem c2_delay_slot_eq_prev_branch_unless_misaligned (env : Env)
    (c c' : Cpu) (h : Cpu.run_next_instruction env c = some c') :
    c'.delay_slot = if c.pc % 4 = 0 then c.branch else c.delay_slot := by
  unfold Cpu.run_next_instruction at h
  cases hsp : c.syncPending
  · rw [hsp] at h
    simpa using delay_slot_step_after_sync h
  · rw [hsp] at h
    simpa using delay_slot_step_after_sync h

/-- Claim C2 witness: the amended theorem applied to the concrete
misaligned state `c2wCpu` (pc = 1). -/
theorem c2_delay_slot_eq_prev_branch_unless_misaligned_witness :
    (Cpu.exception { c2wCpu with current_pc := c2wCpu.pc }
        .LoadAddressError).delay_slot = false := by
  have h : Cpu.run_next_instruction zeroEnv c2wCpu =
      some (Cpu.exception { c2wCpu with current_pc := c2wCpu.pc }
        .LoadAddressError) := rfl
  have hx := c2_delay_slot_eq_prev_branch_unless_misaligned zeroEnv c2wCpu _ h
  rw [hx]
  decide

theorem toU32_toSigned_add (a b : Nat) :
    toU32 (toSigned a + toSigned b) = (a + b) % 4294967296 := by
  unfold toSigned toU32
  split <;> split <;> omega

theorem toU32_toSigned (a : Nat) (ha : a < 4294967296) :
    toU32 (toSigned a) = a := by
  unfold toSigned toU32
  split <;> omega

/-- Claim C4: when the signed 32-bit addition of the two source
register values does not overflow, ADD produces exactly ADDU's state
(destination written with the wrapping sum); on overflow ADD raises the
Overflow exception after committing the pending delayed load, leaving
the register file exactly as the commit left it (the destination is not
written). -/
theorem c4_add_addu_overflow (i : Instruction) (c : Cpu) :
    (-2147483648 ≤ toSigned (c.reg i.s) + toSigned (c.reg i.t) ∧
        toSigned (c.reg i.s) + toSigned (c.reg i.t) < 2147483648 →
      Cpu.op_add i c = Cpu.op_addu i c) ∧
    (¬ (-2147483648 ≤ toSigned (c.reg i.s) + toSigned (c.reg i.t) ∧
        toSigned (c.reg i.s) + toSigned (c.reg i.t) < 2147483648) →
      Cpu.op_add i c = (c.delayed_load).exception .Overflow ∧
      (Cpu.op_add i c).regs = c.delayed_load.regs) := by
  constructor
  · intro hno
    have he : i32CheckedAdd (toSigned (c.reg i.s)) (toSigned (c.reg i.t)) =
        some (toSigned (c.reg i.s) + toSigned (c.reg i.t)) := by
      unfold i32CheckedAdd
      rw [if_pos hno]
    unfold Cpu.op_add Cpu.op_addu
    try dsimp only
    rw [he]
    try dsimp only
    rw [show toU32 (toSigned (c.reg i.s) + toSigned (c.reg i.t)) =
        wadd (c.reg i.s) (c.reg i.t) from toU32_toSigned_add _ _]
  · intro hov
    have he : i32CheckedAdd (toSigned (c.reg i.s)) (toSigned (c.reg i.t)) =
        none := by
      unfold i32CheckedAdd
      rw [if_neg hov]
    unfold Cpu.op_add
    try dsimp only
    rw [he]
    exact ⟨rfl, rfl⟩

theorem toSigned_eq_zero_iff (b : Nat) (hb : b < 4294967296) :
    toSigned b = 0 ↔ b = 0 := by
  unfold toSigned
  split <;> omega

theorem toSigned_eq_neg_one_iff (b : Nat) (hb : b < 4294967296) :
    toSigned b = -1 ↔ b = 4294967295 := by
  unfold toSigned
  split <;> omega

/-- Claim C5: DIV and DIVU never fault (the PC and Cop0 state are left
untouched for every pair of operands); DIV by zero sets HI to the
dividend's unsigned value and LO to 0xFFFFFFFF or 1 depending on the
dividend's sign; DIV of 0x80000000 by -1 sets HI = 0, LO = 0x80000000;
every other DIV sets HI/LO to the truncated signed remainder/quotient;
DIVU by zero sets HI to the dividend and LO to 0xFFFFFFFF. -/
theorem c5_div_divu_edge_cases (i : Instruction) (c : Cpu)
    (ha : c.reg i.s < 4294967296) (hb : c.reg i.t < 4294967296) :
    (Cpu.op_div i c).pc = c.pc ∧ (Cpu.op_div i c).cop0 = c.cop0 ∧
    (Cpu.op_divu i c).pc = c.pc ∧ (Cpu.op_divu i c).cop0 = c.cop0 ∧
    (c.reg i.t = 0 →
      (Cpu.op_div i c).hi = c.reg i.s ∧
      (Cpu.op_div i c).lo =
        (if 0 ≤ toSigned (c.reg i.s) then 0xffffffff else 1)) ∧
    (c.reg i.s = 0x80000000 → c.reg i.t = 0xffffffff →
      (Cpu.op_div i c).hi = 0 ∧ (Cpu.op_div i c).lo = 0x80000000) ∧
    (c.reg i.t ≠ 0 → ¬ (c.reg i.s = 0x80000000 ∧ c.reg i.t = 0xffffffff) →
      (Cpu.op_div i c).hi =
          toU32 (Int.tmod (toSigned (c.reg i.s)) (toSigned (c.reg i.t))) ∧
      (Cpu.op_div i c).lo =
          toU32 (Int.tdiv (toSigned (c.reg i.s)) (toSigned (c.reg i.t)))) ∧
    (c.reg i.t = 0 →
      (Cpu.op_divu i c).hi = c.reg i.s ∧ (Cpu.op_divu i c).lo = 0xffffffff) ∧
    (c.reg i.t ≠ 0 →
      (Cpu.op_divu i c).hi = c.reg i.s % c.reg i.t ∧
      (Cpu.op_divu i c).lo = c.reg i.s / c.reg i.t) := by
  refine ⟨?_, ?_, ?_, ?_, ?_, ?_, ?_, ?_, ?_⟩
  · unfold Cpu.op_div
    try dsimp only
    split <;> [rfl; split <;> rfl]
  · unfold Cpu.op_div
    try dsimp only
    split <;> [rfl; split <;> rfl]
  · unfold Cpu.op_divu
    try dsimp only
    split <;> rfl
  · unfold Cpu.op_divu
    try dsimp only
    split <;> rfl
  · intro h0
    have hd : toSigned (c.reg i.t) = 0 := by rw [h0]; rfl
    unfold Cpu.op_div
    try dsimp only
    rw [if_pos hd]
    exact ⟨toU32_toSigned _ ha, rfl⟩
  · intro hsv htv
    have hd1 : toSigned (c.reg i.t) ≠ 0 := by
      intro hz
      have := (toSigned_eq_zero_iff _ hb).mp hz
      omega
    have hdm : toSigned (c.reg i.t) = -1 := by
      rw [(toSigned_eq_neg_one_iff _ hb)]
      exact htv
    unfold Cpu.op_div
    try dsimp only
    rw [if_neg hd1, if_pos ⟨by rw [toU32_toSigned _ ha]; exact hsv, hdm⟩]
    exact ⟨rfl, rfl⟩
  · intro hne hnot
    have hd1 : toSigned (c.reg i.t) ≠ 0 := by
      intro hz
      exact hne ((toSigned_eq_zero_iff _ hb).mp hz)
    have hd2 : ¬ (toU32 (toSigned (c.reg i.s)) = 0x80000000 ∧
        toSigned (c.reg i.t) = -1) := by
      rintro ⟨h1, h2⟩
      rw [toU32_toSigned _ ha] at h1
      exact hnot ⟨h1, (toSigned_eq_neg_one_iff _ hb).mp h2⟩
    unfold Cpu.op_div
    try dsimp only
    rw [if_neg hd1, if_neg hd2]
    exact ⟨rfl, rfl⟩
  · intro h0
    unfold Cpu.op_divu
    try dsimp only
    rw [if_pos h0]
    exact ⟨rfl, rfl⟩
  · intro hne
    unfold Cpu.op_divu
    try dsimp only
    rw [if_neg hne]
    exact ⟨rfl, rfl⟩

/-- Claim C3 witness: the chain theorem applied at the concrete state
`c3Cpu` (pending load `(5, 7)`), once to the same target 5 and once to
the target 6. -/
theorem c3_delayed_load_chain_spec_witness :
    (c3Cpu.delayed_load_chain 5 9).load = (5, 9) ∧
    (c3Cpu.delayed_load_chain 5 9).regs = c3Cpu.regs ∧
    (c3Cpu.delayed_load_chain 6 9).regs 5 = 7 := by
  refine ⟨(c3_delayed_load_chain_spec c3Cpu 5 9).1,
    (c3_delayed_load_chain_spec c3Cpu 5 9).2.1 rfl, ?_⟩
  have h := (c3_delayed_load_chain_spec c3Cpu 6 9).2.2 (by decide) 5
  rw [h]
  decide

/-- Claim C4 witness: the ADD/ADDU theorem applied at `c4Cpu` to a
non-overflowing and an overflowing ADD. -/
theorem c4_add_addu_overflow_witness :
    Cpu.op_add c4AddOk c4Cpu = Cpu.op_addu c4AddOk c4Cpu ∧
    Cpu.op_add c4AddOvf c4Cpu = (c4Cpu.delayed_load).exception .Overflow := by
  refine ⟨(c4_add_addu_overflow c4AddOk c4Cpu).1 (by decide),
    ((c4_add_addu_overflow c4AddOvf c4Cpu).2 (by decide)).1⟩

/-- Claim C5 witness: the DIV/DIVU theorem applied at `c4Cpu` to a
division of 0x7fffffff by zero. -/
theorem c5_div_divu_edge_cases_witness :
    (Cpu.op_div c5DivByZero c4Cpu).hi = 0x7fffffff ∧
    (Cpu.op_div c5DivByZero c4Cpu).lo = 0xffffffff ∧
    (Cpu.op_div c5DivByZero c4Cpu).pc = c4Cpu.pc := by
  obtain ⟨h1, _, _, _, h5, _⟩ :=
    c5_div_divu_edge_cases c5DivByZero c4Cpu (by decide) (by decide)
  obtain ⟨hhi, hlo⟩ := h5 (by decide)
  refine ⟨?_, ?_, h1⟩
  · rw [hhi]
    decide
  · rw [hlo]
    decide

theorem chain_load (c : Cpu) (r v : Nat) :
    (c.delayed_load_chain r v).load = (r, v) := rfl

theorem chain_regs_at_target (c : Cpu) (r v : Nat) (h0 : c.regs 0 = 0) :
    (c.delayed_load_chain r v).regs r = c.regs r := by
  unfold Cpu.delayed_load_chain
  try dsimp only
  split
  · rename_i hne
    show (c.set_reg c.load.1 c.load.2).regs r = c.regs r
    unfold Cpu.set_reg
    try dsimp only
    rcases eq_or_ne r 0 with h | h
    · rw [h, if_pos rfl, h0]
    · rw [if_neg h, if_neg (fun hh => hne hh.symm)]
  · rfl

theorem chain_regs_cancel (c : Cpu) (r v : Nat) (h : c.load.1 = r) :
    (c.delayed_load_chain r v).regs = c.regs := by
  unfold Cpu.delayed_load_chain
  try dsimp only
  rw [if_neg (fun hh => hh h)]

/-- Claim C8: MFC0 (for every register index it handles), MFC2 and CFC2
install the moved value through `delayed_load_chain`: the pending load
becomes `(t, value)`, the target register is not written by the
instruction itself (the value is invisible to the immediately following
instruction), and a pending delayed load to the same register is
cancelled outright (the register file is untouched). -/
theorem c8_cop_moves_are_delayed_loads (env : Env) (i : Instruction) (c : Cpu)
    (h0 : c.regs 0 = 0) :
    (∀ c', Cpu.op_mfc0 env i c = some c' →
      (∃ v, Cpu.mfc0Read env c i.d = some v ∧ c'.load = (i.t, v)) ∧
      c'.regs i.t = c.regs i.t ∧
      (c.load.1 = i.t → c'.regs = c.regs)) ∧
    ((Cpu.op_mfc2 i c).load = (i.t, c.gte.data i.d) ∧
      (Cpu.op_mfc2 i c).regs i.t = c.regs i.t ∧
      (c.load.1 = i.t → (Cpu.op_mfc2 i c).regs = c.regs)) ∧
    ((Cpu.op_cfc2 i c).load = (i.t, c.gte.control i.d) ∧
      (Cpu.op_cfc2 i c).regs i.t = c.regs i.t ∧
      (c.load.1 = i.t → (Cpu.op_cfc2 i c).regs = c.regs)) := by
  refine ⟨?_, ⟨chain_load c i.t _, chain_regs_at_target c i.t _ h0,
      fun h => chain_regs_cancel c i.t _ h⟩,
    ⟨chain_load c i.t _, chain_regs_at_target c i.t _ h0,
      fun h => chain_regs_cancel c i.t _ h⟩⟩
  intro c' h
  unfold Cpu.op_mfc0 at h
  cases hm : Cpu.mfc0Read env c i.d <;> rw [hm] at h
  · exact Option.noConfusion h
  · cases h
    rename_i v
    exact ⟨⟨v, rfl, chain_load c i.t v⟩, chain_regs_at_target c i.t v h0,
      fun hl => chain_regs_cancel c i.t v hl⟩

/-- Claim C9: an SWC2 whose effective address is not 4-byte aligned
commits the pending delayed load, appends nothing to the store log, and
raises LoadAddressError — whose MIPS cause code (4) lands in CAUSE bits
[6:2] and differs from StoreAddressError's (5). -/
theorem c9_swc2_misaligned_load_address_error (env : Env) (i : Instruction) (c : Cpu)
    (hmis : wadd (c.reg i.s) i.imm_se % 4 ≠ 0) :
    Cpu.op_swc2 env i c =
      some ((c.delayed_load).exception .LoadAddressError) ∧
    ((c.delayed_load).exception .LoadAddressError).stores = c.stores ∧
    ((c.delayed_load).exception .LoadAddressError).regs =
      c.delayed_load.regs ∧
    ((c.delayed_load).exception .LoadAddressError).cop0.cause &&& 0x7c =
      exceptionCode .LoadAddressError <<< 2 ∧
    exceptionCode .LoadAddressError ≠ exceptionCode .StoreAddressError := by
  refine ⟨?_, rfl, rfl, ?_, by decide⟩
  · unfold Cpu.op_swc2
    try dsimp only
    rw [if_neg hmis]
  · show ((c.delayed_load).cop0.enter_exception .LoadAddressError
        (c.delayed_load).current_pc (c.delayed_load).delay_slot).1.cause
        &&& 0x7c = _
    unfold Cop0.enter_exception
    try dsimp only
    rw [Nat.and_distrib_right, Nat.and_distrib_right, Nat.and_assoc]
    have h1 : (2147483523 &&& 124 : Nat) = 0 := by decide
    split <;> (rw [h1, Nat.and_zero]; decide)

/-- Claim C8 witness: the theorem applied at the concrete state `c8Cpu`
(pending load targeting register 2) and instruction `c8I`. -/
theorem c8_cop_moves_are_delayed_loads_witness :
    (Cpu.op_mfc2 c8I c8Cpu).load = (2, 112) ∧
    (Cpu.op_mfc2 c8I c8Cpu).regs = c8Cpu.regs ∧
    (Cpu.op_mfc0 zeroEnv c8I c8Cpu).map (fun c => c.load) = some (2, 0) := by
  obtain ⟨hm0, ⟨hl2, _, hc2⟩, _⟩ :=
    c8_cop_moves_are_delayed_loads zeroEnv c8I c8Cpu (by decide)
  refine ⟨by rw [hl2]; decide, hc2 (by decide), ?_⟩
  have h : Cpu.op_mfc0 zeroEnv c8I c8Cpu =
      some (c8Cpu.delayed_load_chain 2 0) := rfl
  obtain ⟨⟨v, hv, hload⟩, _, _⟩ := hm0 _ h
  have hcomp : Cpu.mfc0Read zeroEnv c8Cpu c8I.d = some 0 := rfl
  rw [hcomp] at hv
  have hveq : v = 0 := (Option.some.inj hv).symm
  simp only [h, Option.map_some']
  rw [hload, hveq]
  decide

/-- Claim C9 witness: the theorem applied at the concrete misaligned
SWC2 (`c9Cpu`, effective address 2). -/
theorem c9_swc2_misaligned_load_address_error_witness :
    Cpu.op_swc2 zeroEnv c9I c9Cpu =
      some ((c9Cpu.delayed_load).exception .LoadAddressError) ∧
    ((c9Cpu.delayed_load).exception .LoadAddressError).stores = [] := by
  obtain ⟨h1, h2, _⟩ :=
    c9_swc2_misaligned_load_address_error zeroEnv c9I c9Cpu (by decide)
  exact ⟨h1, h2.trans rfl⟩

theorem and_shiftLeft_mask (x j k : Nat) :
    x &&& ((2 ^ j - 1) <<< k) = ((x >>> k) % 2 ^ j) <<< k := by
  apply Nat.eq_of_testBit_eq
  intro i
  simp only [Nat.testBit_and, Nat.testBit_shiftLeft,
    Nat.testBit_two_pow_sub_one, Nat.testBit_mod_two_pow,
    Nat.testBit_shiftRight]
  by_cases h : k ≤ i
  · have hik : k + (i - k) = i := by omega
    simp [h, hik, Bool.and_comm, Bool.and_left_comm]
  · simp [h]

theorem and_shiftLeft_mask_arith (x j k : Nat) :
    x &&& ((2 ^ j - 1) <<< k) = (x / 2 ^ k % 2 ^ j) * 2 ^ k := by
  rw [and_shiftLeft_mask, Nat.shiftLeft_eq, Nat.shiftRight_eq_div_pow]

theorem lor_eq_add (k a b : Nat) (ha : 2 ^ k ∣ a) (hb : b < 2 ^ k) :
    a ||| b = a + b := by
  obtain ⟨q, rfl⟩ := ha
  rw [← Nat.mul_add_lt_is_or hb]

theorem w32_shiftLeft (x k : Nat) (hk : k ≤ 32) :
    w32 (x <<< k) = (x % 2 ^ (32 - k)) * 2 ^ k := by
  rw [Nat.shiftLeft_eq, w32]
  have h : (4294967296 : Nat) = 2 ^ (32 - k) * 2 ^ k := by
    rw [← Nat.pow_add, Nat.sub_add_cancel hk]
  rw [h, Nat.mul_mod_mul_right]

theorem byteAt_arith (env : Env) (a : Nat) :
    byteAt env a =
      env.loadWordF (a - a % 4) / 2 ^ (8 * (a % 4)) % 256 := by
  unfold byteAt
  rw [Nat.shiftRight_eq_div_pow]
  rw [show (0xff : Nat) = 2 ^ 8 - 1 from rfl, Nat.and_pow_two_sub_one_eq_mod]

theorem lwlMerge_arith_0 (cur w : Nat) :
    Cpu.lwlMerge 0 cur w = (w % 256) * 16777216 + cur % 16777216 := by
  show (cur &&& 0x00ffffff) ||| w32 (w <<< 24) = _
  rw [show (0x00ffffff : Nat) = 2 ^ 24 - 1 from rfl,
    Nat.and_pow_two_sub_one_eq_mod, w32_shiftLeft w 24 (by omega),
    Nat.lor_comm, lor_eq_add 24 _ _ ⟨w % 2 ^ 8, by ring⟩ (Nat.mod_lt _ (by omega))]
  norm_num [Nat.add_comm]

theorem lwlMerge_arith_3 (cur w : Nat) (hw : w < 4294967296) :
    Cpu.lwlMerge 3 cur w = w := by
  show (cur &&& 0) ||| w32 (w <<< 0) = w
  rw [Nat.and_zero, Nat.zero_or, Nat.shiftLeft_zero, w32, Nat.mod_eq_of_lt hw]

theorem lwrMerge_arith_1 (cur w : Nat) (hw : w < 4294967296) :
    Cpu.lwrMerge 1 cur w = (cur / 16777216 % 256) * 16777216 + w / 256 := by
  show (cur &&& 0xff000000) ||| (w >>> 8) = _
  rw [show (0xff000000 : Nat) = (2 ^ 8 - 1) <<< 24 from rfl,
    and_shiftLeft_mask_arith, Nat.shiftRight_eq_div_pow,
    lor_eq_add 24 _ _ ⟨cur / 2 ^ 24 % 2 ^ 8, by ring⟩ (by omega)]
  norm_num

theorem lwlMerge_arith_1 (cur w : Nat) :
    Cpu.lwlMerge 1 cur w = (w % 65536) * 65536 + cur % 65536 := by
  show (cur &&& 0x0000ffff) ||| w32 (w <<< 16) = _
  rw [show (0x0000ffff : Nat) = 2 ^ 16 - 1 from rfl,
    Nat.and_pow_two_sub_one_eq_mod, w32_shiftLeft w 16 (by omega),
    Nat.lor_comm, lor_eq_add 16 _ _ ⟨w % 2 ^ 16, by ring⟩ (Nat.mod_lt _ (by omega))]
  norm_num [Nat.add_comm]

theorem lwlMerge_arith_2 (cur w : Nat) :
    Cpu.lwlMerge 2 cur w = (w % 16777216) * 256 + cur % 256 := by
  show (cur &&& 0x000000ff) ||| w32 (w <<< 8) = _
  rw [show (0x000000ff : Nat) = 2 ^ 8 - 1 from rfl,
    Nat.and_pow_two_sub_one_eq_mod, w32_shiftLeft w 8 (by omega),
    Nat.lor_comm, lor_eq_add 8 _ _ ⟨w % 2 ^ 24, by ring⟩ (Nat.mod_lt _ (by omega))]
  norm_num [Nat.add_comm]

theorem lwrMerge_arith_0 (cur w : Nat) :
    Cpu.lwrMerge 0 cur w = w := by
  show (cur &&& 0) ||| (w >>> 0) = w
  rw [Nat.and_zero, Nat.zero_or, Nat.shiftRight_zero]

theorem lwrMerge_arith_2 (cur w : Nat) (hw : w < 4294967296) :
    Cpu.lwrMerge 2 cur w = (cur / 65536 % 65536) * 65536 + w / 65536 := by
  show (cur &&& 0xffff0000) ||| (w >>> 16) = _
  rw [show (0xffff0000 : Nat) = (2 ^ 16 - 1) <<< 16 from rfl,
    and_shiftLeft_mask_arith, Nat.shiftRight_eq_div_pow,
    lor_eq_add 16 _ _ ⟨cur / 2 ^ 16 % 2 ^ 16, by ring⟩ (by omega)]
  norm_num

theorem lwrMerge_arith_3 (cur w : Nat) (hw : w < 4294967296) :
    Cpu.lwrMerge 3 cur w = (cur / 256 % 16777216) * 256 + w / 16777216 := by
  show (cur &&& 0xffffff00) ||| (w >>> 24) = _
  rw [show (0xffffff00 : Nat) = (2 ^ 24 - 1) <<< 8 from rfl,
    and_shiftLeft_mask_arith, Nat.shiftRight_eq_div_pow,
    lor_eq_add 8 _ _ ⟨cur / 2 ^ 8 % 2 ^ 24, by ring⟩ (by omega)]
  norm_num

theorem and_three (x : Nat) : x &&& 3 = x % 4 := by
  rw [show (3 : Nat) = 2 ^ 2 - 1 from rfl, Nat.and_pow_two_sub_one_eq_mod]

theorem and_not_three (x : Nat) (hx : x < 4294967296) :
    x &&& 0xfffffffc = x - x % 4 := by
  rw [show (0xfffffffc : Nat) = (2 ^ 30 - 1) <<< 2 from rfl,
    and_shiftLeft_mask_arith]
  omega

/-- Claim C6 (amended): for every memory content and every address
A ≥ 3 (each residue of (A - 3) mod 4), executing LWL at A followed by
LWR at A - 3 into the same target register installs as the pending load
value the full unaligned 32-bit little-endian word starting at A - 3,
the lower of the two addresses.  (With the claim's A' = A XOR 3 both
accesses fall inside one aligned word, so the reconstruction fails
whenever the unaligned word spans two aligned words — see the
counterexample.) -/
theorem c6_lwl_lwr_reconstruct (env : Env) (i1 i2 : Instruction) (c : Cpu) (A : Nat)
    (hw : ∀ a, env.loadWordF a < 4294967296)
    (ht : i1.t = i2.t)
    (h3 : 3 ≤ A)
    (hA : wadd (c.reg i1.s) i1.imm_se = A)
    (hA2 : wadd ((Cpu.op_lwl env i1 c).reg i2.s) i2.imm_se = A - 3) :
    (Cpu.op_lwr env i2 (Cpu.op_lwl env i1 c)).load =
      (i2.t, unalignedWordAt env (A - 3)) := by
  have hAlt : A < 4294967296 := by
    rw [← hA]
    exact Nat.mod_lt _ (by omega)
  have hload1 : (Cpu.op_lwl env i1 c).load =
      (i1.t, Cpu.lwlMerge (A &&& 3)
        (if c.load.1 = i1.t then c.load.2 else c.reg i1.t)
        (env.loadWordF (A &&& 0xfffffffc))) := by
    simp only [Cpu.op_lwl]
    rw [hA]
    rfl
  have hmain : (Cpu.op_lwr env i2 (Cpu.op_lwl env i1 c)).load =
      (i2.t, Cpu.lwrMerge ((A - 3) &&& 3)
        (Cpu.lwlMerge (A &&& 3)
          (if c.load.1 = i1.t then c.load.2 else c.reg i1.t)
          (env.loadWordF (A &&& 0xfffffffc)))
        (env.loadWordF ((A - 3) &&& 0xfffffffc))) := by
    simp only [Cpu.op_lwr]
    rw [hA2, hload1]
    dsimp only
    rw [if_pos ht]
    rfl
  rw [hmain]
  generalize (if c.load.1 = i1.t then c.load.2 else c.reg i1.t) = cur
  have hm4 : A % 4 = 0 ∨ A % 4 = 1 ∨ A % 4 = 2 ∨ A % 4 = 3 := by omega
  unfold unalignedWordAt
  rw [and_three, and_three, and_not_three _ hAlt, and_not_three _ (by omega)]
  rw [byteAt_arith, byteAt_arith, byteAt_arith, byteAt_arith]
  rcases hm4 with hk | hk | hk | hk
  · -- A % 4 = 0, X = A - 3, X % 4 = 1
    have e1 : (A - 3) % 4 = 1 := by omega
    have e2 : A - 3 - 1 = A - 4 := by omega
    have e3 : (A - 3 + 1) % 4 = 2 := by omega
    have e4 : A - 3 + 1 - 2 = A - 4 := by omega
    have e5 : (A - 3 + 2) % 4 = 3 := by omega
    have e6 : A - 3 + 2 - 3 = A - 4 := by omega
    have e7 : (A - 3 + 3) % 4 = 0 := by omega
    have e8 : A - 3 + 3 - 0 = A - 0 := by omega
    rw [hk, e1, e2, e3, e4, e5, e6, e7, e8]
    rw [lwlMerge_arith_0, lwrMerge_arith_1 _ _ (hw _)]
    have hw1 := hw (A - 0)
    have hw2 := hw (A - 4)
    try norm_num
    omega
  · -- A % 4 = 1, X % 4 = 2
    have e1 : (A - 3) % 4 = 2 := by omega
    have e2 : A - 3 - 2 = A - 5 := by omega
    have e3 : (A - 3 + 1) % 4 = 3 := by omega
    have e4 : A - 3 + 1 - 3 = A - 5 := by omega
    have e5 : (A - 3 + 2) % 4 = 0 := by omega
    have e6 : A - 3 + 2 - 0 = A - 1 := by omega
    have e7 : (A - 3 + 3) % 4 = 1 := by omega
    have e8 : A - 3 + 3 - 1 = A - 1 := by omega
    rw [hk, e1, e2, e3, e4, e5, e6, e7, e8]
    rw [lwlMerge_arith_1, lwrMerge_arith_2 _ _ (hw _)]
    have hw1 := hw (A - 1)
    have hw2 := hw (A - 5)
    try norm_num
    omega
  · -- A % 4 = 2, X % 4 = 3
    have e1 : (A - 3) % 4 = 3 := by omega
    have e2 : A - 3 - 3 = A - 6 := by omega
    have e3 : (A - 3 + 1) % 4 = 0 := by omega
    have e4 : A - 3 + 1 - 0 = A - 2 := by omega
    have e5 : (A - 3 + 2) % 4 = 1 := by omega
    have e6 : A - 3 + 2 - 1 = A - 2 := by omega
    have e7 : (A - 3 + 3) % 4 = 2 := by omega
    have e8 : A - 3 + 3 - 2 = A - 2 := by omega
    rw [hk, e1, e2, e3, e4, e5, e6, e7, e8]
    rw [lwlMerge_arith_2, lwrMerge_arith_3 _ _ (hw _)]
    have hw1 := hw (A - 2)
    have hw2 := hw (A - 6)
    try norm_num
    omega
  · -- A % 4 = 3, X % 4 = 0
    have e1 : (A - 3) % 4 = 0 := by omega
    have e2 : A - 3 - 0 = A - 3 := by omega
    have e3 : (A - 3 + 1) % 4 = 1 := by omega
    have e4 : A - 3 + 1 - 1 = A - 3 := by omega
    have e5 : (A - 3 + 2) % 4 = 2 := by omega
    have e6 : A - 3 + 2 - 2 = A - 3 := by omega
    have e7 : (A - 3 + 3) % 4 = 3 := by omega
    have e8 : A - 3 + 3 - 3 = A - 3 := by omega
    rw [hk, e1, e2, e3, e4, e5, e6, e7, e8]
    rw [lwlMerge_arith_3 _ _ (hw _), lwrMerge_arith_0]
    have hw1 := hw (A - 3)
    try norm_num
    omega

/-- Claim C6 counterexample: with the aligned words 0x04030201 (at 0)
and 0x08070605 (at 4), LWL at address 1 followed by LWR at 1 XOR 3 = 2
into register 2 leaves the pending value 0x02010403, while the unaligned
word starting at the lower address 1 is 0x05040302. -/
theorem c6_counterexample :
    (Cpu.op_lwr c6Env c6Lwr (Cpu.op_lwl c6Env c6Lwl c6Cpu)).load =
      (2, 0x02010403) ∧
    unalignedWordAt c6Env 1 = 0x05040302 ∧
    (0x02010403 : Nat) ≠ 0x05040302 := by
  refine ⟨by decide, by decide, by decide⟩

/-- Claim C6 witness: the amended theorem applied to constant memory
with LWL at 7 and LWR at 4. -/
theorem c6_lwl_lwr_reconstruct_witness :
    (Cpu.op_lwr c6wEnv c6Lwr (Cpu.op_lwl c6wEnv c6Lwl c6wCpu)).load =
      (2, unalignedWordAt c6wEnv 4) := by
  have h := c6_lwl_lwr_reconstruct c6wEnv c6Lwl c6Lwr c6wCpu 7
    (fun a => by show (0x11223344 : Nat) < 4294967296; norm_num)
    (by decide) (by decide) (by decide) (by decide)
  rw [h]
  decide

theorem loadAcc_isSome (data : List Nat) (o : Nat) :
    ∀ n, (Bios.loadAcc data o n).isSome ↔ (n = 0 ∨ o + n ≤ data.length) := by
  intro n
  induction n with
  | zero => simp [Bios.loadAcc]
  | succ n ih =>
    rcases h1 : Bios.loadAcc data o n with _ | r
    · rw [h1] at ih
      simp [Bios.loadAcc, h1] at ih ⊢
      omega
    · rw [h1] at ih
      simp only [Option.isSome_some, true_iff] at ih
      rcases h2 : data[o + n]? with _ | b
      · have hlen := List.getElem?_eq_none_iff.mp h2
        simp [Bios.loadAcc, h1, h2]
        omega
      · have hlt : o + n < data.length := by
          rcases List.getElem?_eq_some_iff.mp h2 with ⟨h, _⟩
          exact h
        simp [Bios.loadAcc, h1, h2]
        omega

theorem loadAcc_value (data : List Nat) (o : Nat)
    (hbytes : ∀ x ∈ data, x < 256) :
    ∀ n, o + n ≤ data.length →
      Bios.loadAcc data o n =
        some (∑ i ∈ Finset.range n, data.getD (o + i) 0 * 256 ^ i) ∧
      (∑ i ∈ Finset.range n, data.getD (o + i) 0 * 256 ^ i) < 256 ^ n := by
  intro n
  induction n with
  | zero => intro h; simp [Bios.loadAcc]
  | succ n ih =>
    intro h
    obtain ⟨hv, hsb⟩ := ih (by omega)
    have hval : o + n < data.length := by omega
    have hget : data[o + n]? = some data[o + n] := by
      simp [hval]
    have hgd : data.getD (o + n) 0 = data[o + n] := by
      simp [List.getD_eq_getElem?_getD, hget]
    have hgb : data[o + n] < 256 := hbytes _ (List.getElem_mem hval)
    have hpow : (2 : Nat) ^ (8 * n) = 256 ^ n := by
      rw [Nat.pow_mul]
    constructor
    · simp only [Bios.loadAcc, hv, hget, Option.some_bind, Option.map_some']
      rw [Finset.sum_range_succ]
      rw [Nat.shiftLeft_eq, ← hgd, Nat.lor_comm]
      rw [lor_eq_add (8 * n) _ _ ⟨data.getD (o + n) 0, by rw [hpow]; ring⟩
        (by rw [hpow]; exact hsb)]
      rw [hpow]
      exact congrArg some (Nat.add_comm _ _)
    · rw [Finset.sum_range_succ]
      calc (∑ i ∈ Finset.range n, data.getD (o + i) 0 * 256 ^ i) +
            data.getD (o + n) 0 * 256 ^ n
          < 256 ^ n + data.getD (o + n) 0 * 256 ^ n := by omega
        _ = (data.getD (o + n) 0 + 1) * 256 ^ n := by ring
        _ ≤ 256 * 256 ^ n := by
            apply Nat.mul_le_mul_right
            omega
        _ = 256 ^ (n + 1) := by ring

theorem dummy_data_eq : Bios.dummy.data = dummyBiosData := by
  simp only [Bios.dummy]

theorem dummyBiosData_length : dummyBiosData.length = 524288 := by
  simp [dummyBiosData, BIOS_SIZE]

theorem dummyBiosData_bytes_lt : ∀ x ∈ dummyBiosData, x < 256 := by
  intro x hx
  simp only [dummyBiosData, List.mem_map] at hx
  obtain ⟨i, _, rfl⟩ := hx
  omega

/-- Claim C7: BIOS serialization emits exactly the metadata's 32-byte
SHA-256 digest; deserializing a 32-byte digest fails with the error
"unknown BIOS checksum" whenever the digest is absent from the database,
and for a known digest yields the placeholder (dummy) image carrying the
database's metadata — the ROM bytes are the dummy pattern, not restored
data. -/
theorem c7_bios_serde (db : List Nat → Option Metadata) (b : Bios)
    (digest : List Nat) (m : Metadata) :
    Bios.serialize b = b.metadata.sha256 ∧
    (digest.length = 32 → db digest = none →
      Bios.deserialize db digest = Except.error "unknown BIOS checksum") ∧
    (digest.length = 32 → db digest = some m →
      Bios.deserialize db digest =
        Except.ok { data := dummyBiosData, metadata := m }) := by
  refine ⟨rfl, ?_, ?_⟩
  · intro hl hdb
    unfold Bios.deserialize
    rw [if_neg (by omega), List.take_of_length_le (by omega), hdb]
  · intro hl hdb
    unfold Bios.deserialize
    rw [if_neg (by omega), List.take_of_length_le (by omega), hdb]
    dsimp only
    rw [dummy_data_eq]

/-- Claim C7 witness: the serde theorem applied to a one-entry database,
an unknown digest (thirty-two 2s) and the known digest (thirty-two 1s). -/
theorem c7_bios_serde_witness :
    Bios.deserialize c7Db (List.replicate 32 2) =
      Except.error "unknown BIOS checksum" ∧
    Bios.deserialize c7Db (List.replicate 32 1) =
      Except.ok { data := dummyBiosData, metadata := c7Meta } ∧
    Bios.serialize { data := dummyBiosData, metadata := c7Meta } =
      List.replicate 32 1 := by
  refine ⟨(c7_bios_serde c7Db Bios.dummy (List.replicate 32 2) c7Meta).2.1
      (by simp) rfl,
    (c7_bios_serde c7Db Bios.dummy (List.replicate 32 1) c7Meta).2.2
      (by simp) rfl,
    (c7_bios_serde c7Db { data := dummyBiosData, metadata := c7Meta }
      [] c7Meta).1.trans rfl⟩

/-- Claim C10: `Bios::load` with width 1, 2 or 4 at offset `o` is
panic-free exactly when `o + width ≤ 524288`, and under that
precondition returns the little-endian value of the addressed bytes,
which is below 2^32 (zero-extension to 32 bits). -/
theorem c10_bios_load_bounds (b : Bios) (w o : Nat)
    (hlen : b.data.length = 524288)
    (hbytes : ∀ x ∈ b.data, x < 256)
    (hw : w = 1 ∨ w = 2 ∨ w = 4) :
    ((Bios.load b w o).isSome ↔ o + w ≤ 524288) ∧
    (o + w ≤ 524288 →
      Bios.load b w o =
        some (∑ i ∈ Finset.range w, b.data.getD (o + i) 0 * 256 ^ i)) ∧
    (∀ v, Bios.load b w o = some v → v < 4294967296) := by
  have hw0 : w ≠ 0 := by rcases hw with h | h | h <;> omega
  have hiff : (Bios.load b w o).isSome ↔ o + w ≤ 524288 := by
    show (Bios.loadAcc b.data o w).isSome ↔ _
    rw [loadAcc_isSome, hlen]
    omega
  refine ⟨hiff, ?_, ?_⟩
  · intro hle
    exact (loadAcc_value b.data o hbytes w (by omega)).1
  · intro v hv
    have hle : o + w ≤ 524288 := by
      apply hiff.mp
      rw [hv]
      rfl
    obtain ⟨h1, h2⟩ := loadAcc_value b.data o hbytes w (by omega)
    have hveq : Bios.load b w o = some _ := h1
    rw [hveq] at hv
    cases hv
    rcases hw with h | h | h <;> subst h <;> exact h2.trans_le (by norm_num)

/-- Claim C10 witness: the bounds theorem applied to the dummy BIOS at a
valid and at an out-of-range offset. -/
theorem c10_bios_load_bounds_witness :
    (Bios.load Bios.dummy 4 0).isSome ∧
    ¬ (Bios.load Bios.dummy 4 524286).isSome := by
  have t1 := c10_bios_load_bounds Bios.dummy 4 0
    (by rw [dummy_data_eq]; exact dummyBiosData_length)
    (by rw [dummy_data_eq]; exact dummyBiosData_bytes_lt) (by omega)
  have t2 := c10_bios_load_bounds Bios.dummy 4 524286
    (by rw [dummy_data_eq]; exact dummyBiosData_length)
    (by rw [dummy_data_eq]; exact dummyBiosData_bytes_lt) (by omega)
  refine ⟨t1.1.mpr (by omega), fun h => ?_⟩
  have := t2.1.mp h
  omega

end PsxRs
